import Mathlib

/-!
Formal model of the EVSE-SyncCharge charging core.

The definitions below are a shallow embedding of the charging control core:
the J1772 pilot driver (`Pilot.*`, from `EVSE-SyncCharge/Pilot.cpp` and
`Pilot.h`), the contactor driver (`Relay.*`, from `EVSE-SyncCharge/Relay.cpp`
and, for `openImmediately`, `EVSE_Arduino/Relay.cpp`, the only translation
unit in the repository that defines it), and the charge controller
(`EvseCharge.*`, from `EVSE-SyncCharge/EvseCharge.cpp`).

Modelling conventions:
- `float` quantities (currents in ampere, PWM duty in percent, pilot-line
  millivolts before the integer cast) are modelled as exact rationals `ℚ`;
  every constant involved is exactly representable and no claim in scope
  depends on binary rounding of IEEE single precision.
- `unsigned long` millisecond timestamps (32-bit on the target) are `Nat`
  values; stored timestamps are reduced `% 2^32` and the firmware's
  wrap-around subtractions `a - b` are modelled by `usub`.
- Hardware reads are inputs: one `Pilot.read` window is the pair
  (maximum, minimum) of the calibrated ADC millivolt samples drained from
  the DMA buffer (`none` when the window held zero samples), the RCM trip
  line and self-test outcome are booleans supplied per cycle.
- The C++ function-local `static` debounce variables of `Pilot::read`
  (`candidateState`, `stabilityCounter`) are fields of `PilotState`, since
  they are process-lifetime state.
- Logging is side-effect free and omitted; event handler callbacks
  (`stateChange`, `vehicleStateChange`) do not touch controller state and
  are omitted.
-/

set_option maxHeartbeats 1600000
set_option linter.unreachableTactic false
set_option linter.unusedTactic false

/-- Modulus of the target's 32-bit `unsigned long` millisecond counters. -/
def U32 : Nat := 4294967296

/-- Wrap-around 32-bit unsigned subtraction `a - b`, as performed by the
firmware's `millis() - timestamp` expressions. -/
def usub (a b : Nat) : Nat := (a % U32 + (U32 - b % U32)) % U32

/- ===== Constants from Pilot.h and Relay.cpp ===== -/

def MIN_CURRENT : ℚ := 6
def MAX_CURRENT : ℚ := 80
def J1772_LOW_RANGE_MAX_AMPS : ℚ := 51
def J1772_LOW_RANGE_MAX_DUTY : ℚ := 85
def J1772_LOW_RANGE_FACTOR : ℚ := 3/5
def J1772_HIGH_RANGE_FACTOR : ℚ := 5/2
def J1772_HIGH_RANGE_OFFSET : ℚ := 64
def VOLTAGE_STATE_NOT_CONNECTED : Int := 10600
def VOLTAGE_STATE_CONNECTED : Int := 8000
def VOLTAGE_STATE_READY : Int := 5000
def VOLTAGE_STATE_VENTILATION : Int := 2000
def VOLTAGE_STATE_N12V_THRESHOLD : Int := 1000
def ZERO_OFFSET_MV : ℚ := 1200
def SCALE : ℚ := 69/10
def RELAY_SWITCH_DELAY : Nat := 3000
def RCM_TEST_INTERVAL : Nat := 86400000

/- ===== Enumerations from EvseTypes.h ===== -/

/-- Vehicle states, `VEHICLE_STATE_T` of EvseTypes.h. -/
inductive VEHICLE_STATE_T where
  | VEHICLE_NOT_CONNECTED
  | VEHICLE_CONNECTED
  | VEHICLE_READY
  | VEHICLE_READY_VENTILATION_REQUIRED
  | VEHICLE_NO_POWER
  | VEHICLE_ERROR
  deriving DecidableEq

/-- Charging states, `STATE_T` of EvseTypes.h. -/
inductive STATE_T where
  | STATE_READY
  | STATE_CHARGING
  deriving DecidableEq

open VEHICLE_STATE_T STATE_T

/-- Charging configuration, `ChargingSettings` of EvseTypes.h. -/
structure ChargingSettings where
  maxCurrent : ℚ := 32
  acRelaisOpenAtPause : Bool := false
  disableAtLowLimit : Bool := true
  lowLimitResumeDelayMs : Nat := 300000
  deriving DecidableEq

/- ===== Pilot (Pilot.cpp / Pilot.h) ===== -/

/-- Arduino `constrain(x, lo, hi)` macro on rationals. -/
def constrain (x lo hi : ℚ) : ℚ := if x < lo then lo else if x > hi then hi else x

/-- `Pilot::ampsToDuty`: clamp to `[MIN_CURRENT, MAX_CURRENT]`, then the
piecewise SAE J1772 amps-to-duty mapping. -/
def Pilot.ampsToDuty (amps : ℚ) : ℚ :=
  let a := constrain amps MIN_CURRENT MAX_CURRENT
  if a ≤ J1772_LOW_RANGE_MAX_AMPS then a / J1772_LOW_RANGE_FACTOR
  else a / J1772_HIGH_RANGE_FACTOR + J1772_HIGH_RANGE_OFFSET

/-- `Pilot::dutyToAmps`: inverse piecewise mapping (no clamping). -/
def Pilot.dutyToAmps (duty : ℚ) : ℚ :=
  if duty ≤ J1772_LOW_RANGE_MAX_DUTY then duty * J1772_LOW_RANGE_FACTOR
  else (duty - J1772_HIGH_RANGE_OFFSET) * J1772_HIGH_RANGE_FACTOR

/-- `Pilot::convertMv`: front-end scaling `(adMv - ZERO_OFFSET_MV) * SCALE`. -/
def Pilot.convertMv (adMv : Int) : ℚ := ((adMv : ℚ) - ZERO_OFFSET_MV) * SCALE

/-- C `(int)` cast of a rational: truncation toward zero. -/
def castInt (q : ℚ) : Int := q.num / (q.den : Int)

/-- Process-lifetime state of the pilot driver, including the function-local
static debounce state of `Pilot::read`. -/
structure PilotState where
  highVoltageMv : Int
  lowVoltageMv : Int
  currentDutyPercent : ℚ
  pwmAttached : Bool
  lastVehicleState : VEHICLE_STATE_T
  candidateState : VEHICLE_STATE_T
  stabilityCounter : Nat
  deriving DecidableEq

/-- Initial pilot state: header member initialisers of Pilot.h plus the
initialisers of the static debounce variables in `Pilot::read`. -/
def Pilot.init : PilotState :=
  { highVoltageMv := 0
    lowVoltageMv := 0
    currentDutyPercent := 0
    pwmAttached := false
    lastVehicleState := VEHICLE_NOT_CONNECTED
    candidateState := VEHICLE_ERROR
    stabilityCounter := 0 }

/-- `Pilot::standby`: detach PWM (line held static high). -/
def Pilot.standby (p : PilotState) : PilotState := { p with pwmAttached := false }

/-- `Pilot::currentLimit`: store the duty percent and attach PWM. -/
def Pilot.currentLimit (p : PilotState) (amps : ℚ) : PilotState :=
  { p with currentDutyPercent := Pilot.ampsToDuty amps, pwmAttached := true }

/-- Threshold classification of the positive pilot peak (`Pilot::read`,
step 3). -/
def Pilot.classify (hv : Int) : VEHICLE_STATE_T :=
  if hv ≥ VOLTAGE_STATE_NOT_CONNECTED then VEHICLE_NOT_CONNECTED
  else if hv ≥ VOLTAGE_STATE_CONNECTED then VEHICLE_CONNECTED
  else if hv ≥ VOLTAGE_STATE_READY then VEHICLE_READY
  else if hv ≥ VOLTAGE_STATE_VENTILATION then VEHICLE_READY_VENTILATION_REQUIRED
  else VEHICLE_NO_POWER

/-- Diode-integrity check of `Pilot::read`: with PWM attached and a vehicle
present, a negative peak above the threshold reclassifies as `VEHICLE_ERROR`. -/
def Pilot.diodeCheck (pwmAttached : Bool) (d : VEHICLE_STATE_T) (lv : Int) : VEHICLE_STATE_T :=
  if pwmAttached = true ∧ d ≠ VEHICLE_NOT_CONNECTED ∧ lv > VOLTAGE_STATE_N12V_THRESHOLD
  then VEHICLE_ERROR else d

/-- Classification produced by one `Pilot::read` window (conversion,
threshold classification, diode check) before debouncing. -/
def Pilot.detected (p : PilotState) (s : Int × Int) : VEHICLE_STATE_T :=
  Pilot.diodeCheck p.pwmAttached (Pilot.classify (castInt (Pilot.convertMv s.1))) (castInt (Pilot.convertMv s.2))

/-- Debounce step of `Pilot::read` (step 4, "Best of 3"): grow or reset the
stability counter, and commit the candidate to `lastVehicleState` only once
the counter has reached 3 and the candidate differs from the committed state. -/
def Pilot.debounce (p : PilotState) (detectedState : VEHICLE_STATE_T) : PilotState :=
  let cand := if detectedState = p.candidateState then p.candidateState else detectedState
  let cnt := if detectedState = p.candidateState then p.stabilityCounter + 1 else 0
  if cnt ≥ 3 ∧ cand ≠ p.lastVehicleState then
    { p with candidateState := cand, stabilityCounter := cnt, lastVehicleState := cand }
  else
    { p with candidateState := cand, stabilityCounter := cnt }

/-- `Pilot::read`: drain one sampling window. `none` models the zero-sample
window (early return of the last committed state, nothing updated); with a
window, record the converted peaks, classify, diode-check, and debounce.
The committed state is the `lastVehicleState` field of the result. -/
def Pilot.read (p : PilotState) (sample : Option (Int × Int)) : PilotState :=
  match sample with
  | none => p
  | some s =>
    Pilot.debounce
      { p with highVoltageMv := castInt (Pilot.convertMv s.1)
               lowVoltageMv := castInt (Pilot.convertMv s.2) }
      (Pilot.detected p s)

/- ===== Relay (EVSE-SyncCharge/Relay.cpp, EVSE-SyncCharge/Relay.h) ===== -/

/-- Contactor driver state (`Relay` members plus the driven GPIO level). -/
structure RelayState where
  currentState : Bool
  desiredState : Bool
  lastSwitchTime : Nat
  pin : Bool
  deriving DecidableEq

/-- `Relay::setup`: drive the pin and set both states to the initial value
(constructor zero-initialises `_lastSwitchTime`). -/
def Relay.setup (initialState : Bool) : RelayState :=
  { currentState := initialState, desiredState := initialState
    lastSwitchTime := 0, pin := initialState }

/-- `Relay::loop` (EVSE-SyncCharge variant): commit a pending change when it
is an open (`LOW`), the very first switch, or after the anti-chatter delay;
record the switch time on commit. -/
def Relay.loop (r : RelayState) (now : Nat) : RelayState :=
  if r.desiredState ≠ r.currentState then
    if r.desiredState = false ∨ r.lastSwitchTime = 0 ∨ usub now r.lastSwitchTime ≥ RELAY_SWITCH_DELAY then
      { r with currentState := r.desiredState, pin := r.desiredState, lastSwitchTime := now % U32 }
    else r
  else r

/-- `Relay::open` (EVSE-SyncCharge variant): request the open; no GPIO
change. (`open` is a Lean keyword, hence the trailing underscore.) -/
def Relay.open_ (r : RelayState) : RelayState := { r with desiredState := false }

/-- `Relay::close` (EVSE-SyncCharge variant): request the close; no GPIO
change. -/
def Relay.close (r : RelayState) : RelayState := { r with desiredState := true }

/-- `Relay::openImmediately`: set both states to open and drive the pin in
the same call. The only definition in the repository (EVSE_Arduino/Relay.cpp)
touches no timestamp field. -/
def Relay.openImmediately (r : RelayState) : RelayState :=
  { r with currentState := false, desiredState := false, pin := false }

/- ===== EVSE_Arduino relay variant (EVSE_Arduino/Relay.cpp, Relay.h) ===== -/

/-- State of the EVSE_Arduino `Relay` variant: its timestamp field
`_lastCalledMillis` records the last open/close request. -/
structure ArduinoRelayState where
  currentState : Bool
  desiredState : Bool
  lastCalledMillis : Nat
  pin : Bool
  deriving DecidableEq

/-- `Relay::setup` of the EVSE_Arduino variant. -/
def ArduinoRelay.setup (initialState : Bool) : ArduinoRelayState :=
  { currentState := initialState, desiredState := initialState
    lastCalledMillis := 0, pin := initialState }

/-- `Relay::loop` of the EVSE_Arduino variant: commit a pending change only
after the anti-chatter delay since the last request. -/
def ArduinoRelay.loop (r : ArduinoRelayState) (now : Nat) : ArduinoRelayState :=
  if r.desiredState ≠ r.currentState then
    if usub now r.lastCalledMillis ≥ RELAY_SWITCH_DELAY then
      { r with currentState := r.desiredState, pin := r.desiredState }
    else r
  else r

/-- `Relay::openImmediately` of the EVSE_Arduino variant: set both states to
`LOW` and drive the pin; `_lastCalledMillis` is left untouched. -/
def ArduinoRelay.openImmediately (r : ArduinoRelayState) : ArduinoRelayState :=
  { r with currentState := false, desiredState := false, pin := false }

/-- `Relay::open` of the EVSE_Arduino variant. -/
def ArduinoRelay.open_ (r : ArduinoRelayState) (now : Nat) : ArduinoRelayState :=
  { r with desiredState := false, lastCalledMillis := now % U32 }

/-- `Relay::close` of the EVSE_Arduino variant. -/
def ArduinoRelay.close (r : ArduinoRelayState) (now : Nat) : ArduinoRelayState :=
  { r with desiredState := true, lastCalledMillis := now % U32 }

/- ===== Charge controller (EVSE-SyncCharge/EvseCharge.cpp, EvseCharge.h) ===== -/

/-- Three-phase current reading, `ActualCurrent` of EvseTypes.h. -/
structure ActualCurrent where
  l1 : ℚ := 0
  l2 : ℚ := 0
  l3 : ℚ := 0
  deriving DecidableEq

/-- Whole charge-controller state: the private members of `EvseCharge`
together with its owned `Pilot` and `Relay` objects. -/
structure EvseState where
  pilot : PilotState
  relay : RelayState
  state : STATE_T
  vehicleState : VEHICLE_STATE_T
  settings : ChargingSettings
  currentLimit : ℚ
  started : Nat
  actualCurrent : ActualCurrent
  actualCurrentUpdated : Nat
  currentTest : Bool
  pausedAtLowLimit : Bool
  userPaused : Bool
  pausedSince : Nat
  errorLockout : Bool
  rcmEnabled : Bool
  rcmTripped : Bool
  throttleAliveTimeout : Nat
  lastThrottleAliveTime : Nat
  lastThrottleRampTime : Nat
  lastRcmTestTime : Nat
  lastManagedVehicleState : VEHICLE_STATE_T
  deriving DecidableEq

/-- Vehicle states in which charging is permitted (the
`VEHICLE_CONNECTED || VEHICLE_READY || VEHICLE_READY_VENTILATION_REQUIRED`
disjunction used throughout EvseCharge.cpp). -/
def chargePermissive (v : VEHICLE_STATE_T) : Prop :=
  v = VEHICLE_CONNECTED ∨ v = VEHICLE_READY ∨ v = VEHICLE_READY_VENTILATION_REQUIRED

instance (v : VEHICLE_STATE_T) : Decidable (chargePermissive v) := by
  unfold chargePermissive; infer_instance

/-- Relay branch at the end of the charging arm of
`EvseCharge::applyCurrentLimit`: close only while charging with the vehicle
in `VEHICLE_READY` or `VEHICLE_READY_VENTILATION_REQUIRED`, else open. -/
def EvseCharge.applyRelayForCharging (s : EvseState) : EvseState :=
  if s.state = STATE_CHARGING ∧
      (s.vehicleState = VEHICLE_READY ∨ s.vehicleState = VEHICLE_READY_VENTILATION_REQUIRED) then
    { s with relay := Relay.close s.relay }
  else
    { s with relay := Relay.open_ s.relay }

/-- `EvseCharge::applyCurrentLimit`. -/
def EvseCharge.applyCurrentLimit (s : EvseState) (now : Nat) : EvseState :=
  if s.currentTest then
    { s with relay := Relay.open_ s.relay }
  else if s.state ≠ STATE_CHARGING then
    { s with pilot := Pilot.standby s.pilot, relay := Relay.open_ s.relay }
  else if chargePermissive s.vehicleState then
    if s.currentLimit ≥ MIN_CURRENT then
      if s.pausedAtLowLimit then
        if (if s.pausedSince ≤ now then now - s.pausedSince else 0) ≥ s.settings.lowLimitResumeDelayMs then
          EvseCharge.applyRelayForCharging
            { s with pilot := Pilot.currentLimit s.pilot s.currentLimit, pausedAtLowLimit := false }
        else
          s
      else
        EvseCharge.applyRelayForCharging
          { s with pilot := Pilot.currentLimit s.pilot s.currentLimit }
    else
      if s.settings.disableAtLowLimit then
        if s.settings.acRelaisOpenAtPause then
          if ¬ s.pausedAtLowLimit then
            { s with pilot := Pilot.currentLimit s.pilot s.currentLimit,
                     relay := Relay.openImmediately s.relay,
                     pausedAtLowLimit := true, pausedSince := now % U32 }
          else
            { s with pilot := Pilot.currentLimit s.pilot s.currentLimit,
                     relay := Relay.openImmediately s.relay }
        else
          if ¬ s.pausedAtLowLimit then
            { s with pilot := Pilot.currentLimit s.pilot s.currentLimit,
                     relay := Relay.open_ s.relay,
                     pausedAtLowLimit := true, pausedSince := now % U32 }
          else
            { s with pilot := Pilot.currentLimit s.pilot s.currentLimit,
                     relay := Relay.open_ s.relay }
      else
        { s with pilot := Pilot.currentLimit s.pilot s.currentLimit, pausedAtLowLimit := false }
  else
    { s with relay := Relay.open_ s.relay, pilot := Pilot.standby s.pilot, pausedAtLowLimit := false }

/-- `EvseCharge::stopCharging`: open the relay immediately and fall back to
`STATE_READY`, clearing the user-pause flag in both branches. -/
def EvseCharge.stopCharging (s : EvseState) : EvseState :=
  if s.state ≠ STATE_CHARGING then
    { s with relay := Relay.openImmediately s.relay, userPaused := false }
  else
    { s with relay := Relay.openImmediately s.relay, state := STATE_READY, userPaused := false }

/-- `EvseCharge::startCharging`. `selfTestOk` is the outcome `rcm.selfTest()`
would report if invoked. -/
def EvseCharge.startCharging (s : EvseState) (now : Nat) (selfTestOk : Bool) : EvseState :=
  if s.errorLockout then s
  else if s.state = STATE_CHARGING then s
  else if ¬ chargePermissive s.vehicleState then s
  else if s.rcmEnabled ∧ selfTestOk = false then
    { s with rcmTripped := true, errorLockout := true, relay := Relay.openImmediately s.relay }
  else
    EvseCharge.applyCurrentLimit
      { s with lastRcmTestTime := if s.rcmEnabled then now % U32 else s.lastRcmTestTime,
               state := STATE_CHARGING, started := now % U32, userPaused := false,
               lastThrottleAliveTime := now % U32 }
      now

/-- `EvseCharge::pauseCharging`. -/
def EvseCharge.pauseCharging (s : EvseState) : EvseState :=
  if s.state = STATE_CHARGING then
    { s with relay := Relay.openImmediately s.relay, state := STATE_READY, userPaused := true }
  else s

/-- `EvseCharge::setCurrentLimit`: clamp to `[0, settings.maxCurrent]` and
apply when the clamped value differs from the current limit. -/
def EvseCharge.setCurrentLimit (s : EvseState) (amps : ℚ) (now : Nat) : EvseState :=
  let a1 := if amps < 0 then 0 else amps
  let a2 := if a1 > s.settings.maxCurrent then s.settings.maxCurrent else a1
  if a2 ≠ s.currentLimit then
    EvseCharge.applyCurrentLimit { s with currentLimit := a2 } now
  else s

/-- `EvseCharge::setRcmEnabled`. -/
def EvseCharge.setRcmEnabled (s : EvseState) (enable : Bool) : EvseState :=
  { s with rcmEnabled := enable }

/-- `EvseCharge::setThrottleAliveTimeout`. -/
def EvseCharge.setThrottleAliveTimeout (s : EvseState) (seconds : Nat) : EvseState :=
  { s with throttleAliveTimeout := seconds }

/-- `EvseCharge::signalThrottleAlive`. -/
def EvseCharge.signalThrottleAlive (s : EvseState) (now : Nat) : EvseState :=
  { s with lastThrottleAliveTime := now % U32 }

/-- `EvseCharge::setLowLimitResumeDelay`. -/
def EvseCharge.setLowLimitResumeDelay (s : EvseState) (ms : Nat) : EvseState :=
  { s with settings := { s.settings with lowLimitResumeDelayMs := ms } }

/-- `EvseCharge::setAllowBelow6AmpCharging`. -/
def EvseCharge.setAllowBelow6AmpCharging (s : EvseState) (allow : Bool) (now : Nat) : EvseState :=
  EvseCharge.applyCurrentLimit
    { s with settings := { s.settings with disableAtLowLimit := !allow } } now

/-- `EvseCharge::updateActualCurrent`. -/
def EvseCharge.updateActualCurrent (s : EvseState) (current : ActualCurrent) (now : Nat) : EvseState :=
  { s with actualCurrent := current, actualCurrentUpdated := now % U32 }

/-- `EvseCharge::enableCurrentTest`: rejected while charging; otherwise flip
the flag and put the pilot into standby. -/
def EvseCharge.enableCurrentTest (s : EvseState) (enable : Bool) : EvseState :=
  if enable = true ∧ s.state = STATE_CHARGING then s
  else { s with currentTest := enable, pilot := Pilot.standby s.pilot }

/-- `EvseCharge::setCurrentTest`: no effect unless test mode is enabled;
otherwise clamp to the minimum current and drive the pilot duty. -/
def EvseCharge.setCurrentTest (s : EvseState) (amps : ℚ) : EvseState :=
  if ¬ s.currentTest then s
  else
    { s with pilot := Pilot.currentLimit s.pilot (if amps < MIN_CURRENT then MIN_CURRENT else amps) }

/-- `EvseCharge::isPaused`. -/
def EvseCharge.isPaused (s : EvseState) : Bool := s.userPaused

/-- `EvseCharge::getPilotDuty` (delegates to `Pilot::getPwmDuty`). -/
def EvseCharge.getPilotDuty (s : EvseState) : ℚ := s.pilot.currentDutyPercent

/-- Inputs consumed by one `EvseCharge::loop` cycle: the millisecond clock,
the RCM trip line, the outcome `rcm.selfTest()` would report if invoked this
cycle, and the pilot sampling window. -/
structure LoopInput where
  now : Nat
  rcmTriggered : Bool
  rcmSelfTestOk : Bool
  sample : Option (Int × Int)

/-- `EvseCharge::updateVehicleState`: refresh the committed vehicle state
from `pilot->read()`; on a transition, stop charging if the new state is not
charge-permissive while charging, then re-apply the current limit. -/
def EvseCharge.updateVehicleState (s : EvseState) (sample : Option (Int × Int)) (now : Nat) : EvseState :=
  let p := Pilot.read s.pilot sample
  let s1 := { s with pilot := p }
  if p.lastVehicleState ≠ s.vehicleState then
    let s2 := { s1 with vehicleState := p.lastVehicleState }
    let s3 := if ¬ chargePermissive s2.vehicleState ∧ s2.state = STATE_CHARGING then
                EvseCharge.stopCharging s2
              else s2
    EvseCharge.applyCurrentLimit s3 now
  else s1

/-- Transition-detection prologue of `EvseCharge::managePwmAndRelay`: on a
vehicle-state change, latch the error lockout on `VEHICLE_ERROR` or
`VEHICLE_NO_POWER` (stopping an active charge), and clear the lockout and
the RCM trip flag only on a transition to `VEHICLE_NOT_CONNECTED`. -/
def EvseCharge.manageTransition (s : EvseState) : EvseState :=
  if s.vehicleState ≠ s.lastManagedVehicleState then
    let t := { s with lastManagedVehicleState := s.vehicleState }
    if t.vehicleState = VEHICLE_ERROR ∨ t.vehicleState = VEHICLE_NO_POWER then
      if ¬ t.errorLockout then
        if t.state = STATE_CHARGING then
          EvseCharge.stopCharging { t with errorLockout := true }
        else
          { t with errorLockout := true }
      else t
    else if t.vehicleState = VEHICLE_NOT_CONNECTED ∧ t.errorLockout then
      { t with errorLockout := false, rcmTripped := false }
    else t
  else s

/-- The J1772 output switch of `EvseCharge::managePwmAndRelay`. -/
def EvseCharge.manageSwitch (s : EvseState) : EvseState :=
  match s.vehicleState with
  | VEHICLE_NOT_CONNECTED =>
      { s with pilot := Pilot.standby s.pilot, relay := Relay.open_ s.relay }
  | VEHICLE_CONNECTED =>
      if s.state ≠ STATE_CHARGING then
        { s with pilot := Pilot.standby s.pilot, relay := Relay.open_ s.relay }
      else
        { s with relay := Relay.open_ s.relay }
  | VEHICLE_READY =>
      if s.state = STATE_CHARGING then
        { s with pilot := Pilot.currentLimit s.pilot s.currentLimit, relay := Relay.close s.relay }
      else
        { s with pilot := Pilot.standby s.pilot, relay := Relay.open_ s.relay }
  | VEHICLE_READY_VENTILATION_REQUIRED =>
      if s.state = STATE_CHARGING then
        { s with pilot := Pilot.currentLimit s.pilot s.currentLimit, relay := Relay.close s.relay }
      else
        { s with pilot := Pilot.standby s.pilot, relay := Relay.open_ s.relay }
  | VEHICLE_NO_POWER =>
      { s with pilot := Pilot.standby s.pilot, relay := Relay.open_ s.relay }
  | VEHICLE_ERROR =>
      { s with pilot := Pilot.standby s.pilot, relay := Relay.openImmediately s.relay }

/-- `EvseCharge::managePwmAndRelay`: in test mode only force the relay open;
otherwise run the transition prologue and the J1772 output switch. -/
def EvseCharge.managePwmAndRelay (s : EvseState) : EvseState :=
  if s.currentTest then
    { s with relay := Relay.open_ s.relay }
  else
    EvseCharge.manageSwitch (EvseCharge.manageTransition s)

/-- `EvseCharge::checkResumeFromLowLimit`. -/
def EvseCharge.checkResumeFromLowLimit (s : EvseState) (now : Nat) : EvseState :=
  if s.pausedAtLowLimit ∧ s.currentLimit ≥ MIN_CURRENT then
    if (if s.pausedSince ≤ now then now - s.pausedSince else 0) ≥ s.settings.lowLimitResumeDelayMs then
      EvseCharge.applyCurrentLimit s now
    else s
  else s

/-- ThrottleAlive block at the end of `EvseCharge::loop`: when enabled and
charging, ramp the limit down by 1 A (floored at 6 A) at most every 5000 ms
while external data is stale, and re-arm the ramp timer to `now - 5000`
while it is fresh. -/
def EvseCharge.throttleAliveStep (s : EvseState) (now : Nat) : EvseState :=
  if s.throttleAliveTimeout > 0 ∧ s.state = STATE_CHARGING then
    if usub now s.lastThrottleAliveTime > (s.throttleAliveTimeout * 1000) % U32 then
      if s.currentLimit > 6 then
        if usub now s.lastThrottleRampTime ≥ 5000 then
          { EvseCharge.setCurrentLimit s
              (if s.currentLimit - 1 < 6 then 6 else s.currentLimit - 1) now
            with lastThrottleRampTime := now % U32 }
        else s
      else s
    else
      { s with lastThrottleRampTime := usub now 5000 }
  else s

/-- RCM trip check at the top of `EvseCharge::loop`. -/
def EvseCharge.rcmTriggerStep (s : EvseState) (triggered : Bool) : EvseState :=
  if s.rcmEnabled ∧ triggered = true then
    let s1 := EvseCharge.stopCharging { s with relay := Relay.openImmediately s.relay }
    let s2 := { s1 with rcmTripped := true }
    if ¬ s2.errorLockout then { s2 with errorLockout := true } else s2
  else s

/-- Periodic 24 h RCM self-test of `EvseCharge::loop`. -/
def EvseCharge.rcmPeriodicStep (s : EvseState) (now : Nat) (selfTestOk : Bool) : EvseState :=
  if s.rcmEnabled ∧ s.state ≠ STATE_CHARGING ∧ usub now s.lastRcmTestTime > RCM_TEST_INTERVAL then
    if selfTestOk then
      { s with lastRcmTestTime := now % U32 }
    else
      { s with rcmTripped := true, errorLockout := true, relay := Relay.openImmediately s.relay }
  else s

/-- Phases 1-6 of `EvseCharge::loop` (everything before the ThrottleAlive
block): RCM trip check, periodic RCM self-test, `relay->loop()`, vehicle
state refresh, the J1772 state machine, and the low-limit resume check. -/
def EvseCharge.prethrottle (s : EvseState) (i : LoopInput) : EvseState :=
  let s1 := EvseCharge.rcmTriggerStep s i.rcmTriggered
  let s2 := EvseCharge.rcmPeriodicStep s1 i.now i.rcmSelfTestOk
  let s3 := { s2 with relay := Relay.loop s2.relay i.now }
  let s4 := EvseCharge.updateVehicleState s3 i.sample i.now
  let s5 := EvseCharge.managePwmAndRelay s4
  EvseCharge.checkResumeFromLowLimit s5 i.now

/-- `EvseCharge::loop`: one full control cycle. -/
def EvseCharge.loop (s : EvseState) (i : LoopInput) : EvseState :=
  EvseCharge.throttleAliveStep (EvseCharge.prethrottle s i) i.now

/-- `EvseCharge::setup` composed with the constructor and the header member
initialisers: the state of the controller when `loop` first runs. -/
def EvseCharge.setup (settings : ChargingSettings) (now : Nat) : EvseState :=
  { pilot := Pilot.standby Pilot.init
    relay := Relay.setup false
    state := STATE_READY
    vehicleState := VEHICLE_NOT_CONNECTED
    settings := settings
    currentLimit := settings.maxCurrent
    started := 0
    actualCurrent := {}
    actualCurrentUpdated := 0
    currentTest := false
    pausedAtLowLimit := false
    userPaused := false
    pausedSince := 0
    errorLockout := true
    rcmEnabled := true
    rcmTripped := false
    throttleAliveTimeout := 0
    lastThrottleAliveTime := 0
    lastThrottleRampTime := 0
    lastRcmTestTime := now % U32
    lastManagedVehicleState := VEHICLE_NOT_CONNECTED }

/-- External commands that supervisor adapters may issue between control
cycles (the public mutating surface of `EvseCharge`). -/
inductive Cmd where
  | start (now : Nat) (selfTestOk : Bool)
  | stop
  | pause
  | setLimit (amps : ℚ) (now : Nat)
  | setRcm (enable : Bool)
  | setTimeout (seconds : Nat)
  | alive (now : Nat)
  | setResumeDelay (ms : Nat)
  | setAllowBelow (allow : Bool) (now : Nat)
  | meter (current : ActualCurrent) (now : Nat)
  | enableTest (enable : Bool)
  | setTest (amps : ℚ)

/-- Dispatch an external command to the corresponding public operation. -/
def EvseCharge.applyCmd (s : EvseState) : Cmd → EvseState
  | Cmd.start now st => EvseCharge.startCharging s now st
  | Cmd.stop => EvseCharge.stopCharging s
  | Cmd.pause => EvseCharge.pauseCharging s
  | Cmd.setLimit amps now => EvseCharge.setCurrentLimit s amps now
  | Cmd.setRcm b => EvseCharge.setRcmEnabled s b
  | Cmd.setTimeout sec => EvseCharge.setThrottleAliveTimeout s sec
  | Cmd.alive now => EvseCharge.signalThrottleAlive s now
  | Cmd.setResumeDelay ms => EvseCharge.setLowLimitResumeDelay s ms
  | Cmd.setAllowBelow b now => EvseCharge.setAllowBelow6AmpCharging s b now
  | Cmd.meter c now => EvseCharge.updateActualCurrent s c now
  | Cmd.enableTest b => EvseCharge.enableCurrentTest s b
  | Cmd.setTest amps => EvseCharge.setCurrentTest s amps

/-- Fold a burst of external commands over the controller state. -/
def EvseCharge.applyCmds (s : EvseState) (cs : List Cmd) : EvseState :=
  cs.foldl EvseCharge.applyCmd s

/-- Controller state right after boot with default settings. -/
def bootState : EvseState := EvseCharge.setup {} 0

/-- Boot state after the lockout has been cleared and the vehicle reads
`VEHICLE_READY` (concrete state used to exercise the public operations). -/
def readyState : EvseState :=
  { bootState with errorLockout := false, vehicleState := VEHICLE_READY }

/-- Ready state with a user pause latched. -/
def pausedReadyState : EvseState := { readyState with userPaused := true }

/-- A charging state with ThrottleAlive supervision enabled (timeout 60 s,
limit 20 A, both liveness timestamps at 0). -/
def chargingState : EvseState :=
  { readyState with state := STATE_CHARGING, throttleAliveTimeout := 60, currentLimit := 20 }

/-- Boot state whose committed vehicle state is `VEHICLE_ERROR` (RCM
disabled so the loop input is inert). -/
def errorVehicleState : EvseState :=
  { bootState with vehicleState := VEHICLE_ERROR,
                   lastManagedVehicleState := VEHICLE_ERROR, rcmEnabled := false }

/-- Boot state one cycle after unplugging: committed state already
`VEHICLE_NOT_CONNECTED` but the state machine has not yet observed the
transition. -/
def unplugState : EvseState :=
  { bootState with vehicleState := VEHICLE_NOT_CONNECTED,
                   lastManagedVehicleState := VEHICLE_CONNECTED, rcmEnabled := false }

/-- An inert loop input: clock at 0, no RCM trip, empty sampling window. -/
def idleInput : LoopInput :=
  { now := 0, rcmTriggered := false, rcmSelfTestOk := true, sample := none }

/-- Vehicle states that mandate an open relay (`VEHICLE_NOT_CONNECTED`,
`VEHICLE_NO_POWER`, `VEHICLE_ERROR`). -/
def badState (v : VEHICLE_STATE_T) : Prop :=
  v = VEHICLE_NOT_CONNECTED ∨ v = VEHICLE_NO_POWER ∨ v = VEHICLE_ERROR

instance (v : VEHICLE_STATE_T) : Decidable (badState v) := by
  unfold badState; infer_instance

/- ===== Pilot lemmas ===== -/

theorem Pilot.read_pwm (p : PilotState) (sm : Option (Int × Int)) :
    (Pilot.read p sm).pwmAttached = p.pwmAttached := by
  cases sm with
  | none => rfl
  | some s =>
      simp only [Pilot.read, Pilot.debounce]
      split_ifs <;> rfl

theorem Pilot.read_detected (p : PilotState) (s : Int × Int) (sm : Option (Int × Int)) :
    Pilot.detected (Pilot.read p sm) s = Pilot.detected p s := by
  unfold Pilot.detected
  rw [Pilot.read_pwm]


theorem Pilot.read_fresh (p : PilotState) (s : Int × Int)
    (h : Pilot.detected p s ≠ p.candidateState) :
    (Pilot.read p (some s)).candidateState = Pilot.detected p s ∧
    (Pilot.read p (some s)).stabilityCounter = 0 ∧
    (Pilot.read p (some s)).lastVehicleState = p.lastVehicleState := by
  simp only [Pilot.read, Pilot.debounce]
  simp [h]

theorem Pilot.read_same (p : PilotState) (s : Int × Int)
    (h : Pilot.detected p s = p.candidateState) :
    (Pilot.read p (some s)).candidateState = p.candidateState ∧
    (Pilot.read p (some s)).stabilityCounter = p.stabilityCounter + 1 ∧
    (p.stabilityCounter + 1 ≥ 3 → p.candidateState ≠ p.lastVehicleState →
      (Pilot.read p (some s)).lastVehicleState = p.candidateState) ∧
    (p.stabilityCounter + 1 < 3 →
      (Pilot.read p (some s)).lastVehicleState = p.lastVehicleState) := by
  by_cases hcommit : p.stabilityCounter + 1 ≥ 3 ∧ ¬ p.candidateState = p.lastVehicleState
  · simp only [Pilot.read, Pilot.debounce]
    simp [h, hcommit]
  · have hcommit2 : ¬(2 ≤ p.stabilityCounter ∧ ¬ p.candidateState = p.lastVehicleState) := by
      intro hx
      exact hcommit ⟨by omega, hx.2⟩
    simp only [Pilot.read, Pilot.debounce]
    simp [h, hcommit2]
    intro hge hne
    exact absurd ⟨by omega, hne⟩ hcommit2

theorem Pilot.detected_init_2504 :
    Pilot.detected Pilot.init (2504, 0) = VEHICLE_CONNECTED := by
  norm_num [Pilot.detected, Pilot.diodeCheck, Pilot.classify, castInt, Pilot.convertMv,
    Pilot.init, ZERO_OFFSET_MV, SCALE, VOLTAGE_STATE_NOT_CONNECTED, VOLTAGE_STATE_CONNECTED]

/-- C4 counterexample: from the boot pilot state, a window classifying as
`VEHICLE_CONNECTED` (raw high peak 2504 ADC-mV, converting to 8997 pilot-mV)
does not commit on the very first read, and even three consecutive identical
reads leave the committed `VehicleState` at `VEHICLE_NOT_CONNECTED` —
refuting both the immediate first-read commit and the
three-consecutive-reads commit of the claim. -/
theorem C4_counterexample :
    Pilot.detected Pilot.init (2504, 0) = VEHICLE_CONNECTED ∧
    (Pilot.read Pilot.init (some (2504, 0))).lastVehicleState = VEHICLE_NOT_CONNECTED ∧
    (Pilot.read (Pilot.read (Pilot.read Pilot.init (some (2504, 0))) (some (2504, 0)))
        (some (2504, 0))).lastVehicleState = VEHICLE_NOT_CONNECTED := by
  have h1 : Pilot.detected Pilot.init (2504, 0) ≠ Pilot.init.candidateState := by
    rw [Pilot.detected_init_2504]; decide
  obtain ⟨c1, n1, l1⟩ := Pilot.read_fresh Pilot.init (2504, 0) h1
  have e1 : Pilot.detected (Pilot.read Pilot.init (some (2504, 0))) (2504, 0)
      = (Pilot.read Pilot.init (some (2504, 0))).candidateState := by
    rw [Pilot.read_detected]; exact c1.symm
  obtain ⟨c2, n2, _, l2⟩ := Pilot.read_same _ (2504, 0) e1
  have e2 : Pilot.detected (Pilot.read (Pilot.read Pilot.init (some (2504, 0)))
        (some (2504, 0))) (2504, 0)
      = (Pilot.read (Pilot.read Pilot.init (some (2504, 0))) (some (2504, 0))).candidateState := by
    rw [Pilot.read_detected, Pilot.read_detected]; exact (c2.trans c1).symm
  obtain ⟨c3, n3, _, l3⟩ := Pilot.read_same _ (2504, 0) e2
  refine ⟨Pilot.detected_init_2504, l1, ?_⟩
  have hl2 : (Pilot.read (Pilot.read Pilot.init (some (2504, 0)))
      (some (2504, 0))).lastVehicleState = VEHICLE_NOT_CONNECTED := by
    rw [l2 (by rw [n1]; omega)]; exact l1
  rw [l3 (by rw [n2, n1]; omega)]; exact hl2

/-- C4 (amended): when a read's classification differs from the current
debounce candidate, the committed `VehicleState` is unchanged by that read
and by the next two identical reads, and is updated to the classification
exactly on the fourth consecutive identical read (the read that installs
the candidate plus three confirming reads); and the very first read after
startup never commits — the committed state stays `VEHICLE_NOT_CONNECTED`
whatever the first window classifies as. -/
theorem C4_debounce_amended :
    (∀ (p : PilotState) (s : Int × Int),
      Pilot.detected p s ≠ p.candidateState →
      Pilot.detected p s ≠ p.lastVehicleState →
      (Pilot.read p (some s)).lastVehicleState = p.lastVehicleState ∧
      (Pilot.read (Pilot.read p (some s)) (some s)).lastVehicleState = p.lastVehicleState ∧
      (Pilot.read (Pilot.read (Pilot.read p (some s)) (some s)) (some s)).lastVehicleState
        = p.lastVehicleState ∧
      (Pilot.read (Pilot.read (Pilot.read (Pilot.read p (some s)) (some s)) (some s))
          (some s)).lastVehicleState = Pilot.detected p s) ∧
    (∀ s : Int × Int,
      (Pilot.read Pilot.init (some s)).lastVehicleState = VEHICLE_NOT_CONNECTED) := by
  constructor
  · intro p s h1 h2
    obtain ⟨c1, n1, l1⟩ := Pilot.read_fresh p s h1
    have e1 : Pilot.detected (Pilot.read p (some s)) s
        = (Pilot.read p (some s)).candidateState := by
      rw [Pilot.read_detected]; exact c1.symm
    obtain ⟨c2, n2, _, l2⟩ := Pilot.read_same _ s e1
    have e2 : Pilot.detected (Pilot.read (Pilot.read p (some s)) (some s)) s
        = (Pilot.read (Pilot.read p (some s)) (some s)).candidateState := by
      rw [Pilot.read_detected, Pilot.read_detected]; exact (c2.trans c1).symm
    obtain ⟨c3, n3, _, l3⟩ := Pilot.read_same _ s e2
    have e3 : Pilot.detected (Pilot.read (Pilot.read (Pilot.read p (some s)) (some s))
          (some s)) s
        = (Pilot.read (Pilot.read (Pilot.read p (some s)) (some s)) (some s)).candidateState := by
      rw [Pilot.read_detected, Pilot.read_detected, Pilot.read_detected]
      exact (c3.trans (c2.trans c1)).symm
    obtain ⟨c4, n4, l4, _⟩ := Pilot.read_same _ s e3
    have hl2 : (Pilot.read (Pilot.read p (some s)) (some s)).lastVehicleState
        = p.lastVehicleState := by
      rw [l2 (by rw [n1]; omega)]; exact l1
    have hl3 : (Pilot.read (Pilot.read (Pilot.read p (some s)) (some s))
        (some s)).lastVehicleState = p.lastVehicleState := by
      rw [l3 (by rw [n2, n1]; omega)]; exact hl2
    refine ⟨l1, hl2, hl3, ?_⟩
    have hcommit := l4 (by rw [n3, n2, n1])
      (by rw [c3.trans (c2.trans c1), hl3]; exact h2)
    rw [hcommit]
    exact c3.trans (c2.trans c1)
  · intro s
    by_cases hd : Pilot.detected Pilot.init s = Pilot.init.candidateState
    · obtain ⟨_, _, _, l⟩ := Pilot.read_same Pilot.init s hd
      exact l (by decide)
    · exact (Pilot.read_fresh Pilot.init s hd).2.2

/-- C4 witness: the amended debounce law applied at the boot pilot state and
the `VEHICLE_CONNECTED`-classifying window (2504, 0): the fourth consecutive
identical read commits the classification. -/
theorem C4_debounce_amended_witness :
    (Pilot.read (Pilot.read (Pilot.read (Pilot.read Pilot.init (some (2504, 0)))
        (some (2504, 0))) (some (2504, 0))) (some (2504, 0))).lastVehicleState
      = Pilot.detected Pilot.init (2504, 0) :=
  (C4_debounce_amended.1 Pilot.init (2504, 0)
    (by rw [Pilot.detected_init_2504]; decide)
    (by rw [Pilot.detected_init_2504]; decide)).2.2.2

/-- C5 counterexample: the two branch formulas of the amps-to-duty mapping
do NOT agree at the 51 A seam: the low-range branch gives 51 / 0.6 = 85.0
while the high-range formula gives 51 / 2.5 + 64 = 84.4, and the mapping
jumps by more than 0.5 duty points between 51.0 A and 51.1 A. -/
theorem C5_counterexample :
    (51 : ℚ) / J1772_LOW_RANGE_FACTOR
      ≠ 51 / J1772_HIGH_RANGE_FACTOR + J1772_HIGH_RANGE_OFFSET ∧
    Pilot.ampsToDuty 51 = 85 ∧
    Pilot.ampsToDuty (511/10) = 2111/25 ∧
    (85 : ℚ) - 2111/25 > 1/2 := by
  refine ⟨by norm_num [J1772_LOW_RANGE_FACTOR, J1772_HIGH_RANGE_FACTOR,
      J1772_HIGH_RANGE_OFFSET], ?_, ?_, by norm_num⟩ <;>
    norm_num [Pilot.ampsToDuty, constrain, MIN_CURRENT, MAX_CURRENT,
      J1772_LOW_RANGE_MAX_AMPS, J1772_LOW_RANGE_FACTOR, J1772_HIGH_RANGE_FACTOR,
      J1772_HIGH_RANGE_OFFSET]

/-- C5 (amended): at the 51 A seam the two branches of the amps-to-duty
mapping differ by exactly 0.6 duty points: `ampsToDuty` takes the low-range
branch at exactly 51 A and yields 85.0, while the high-range formula yields
84.4 there; immediately above the seam (51.1 A) the mapping drops to 84.44,
so the piecewise function is not continuous at 51 A. -/
theorem C5_seam_values :
    Pilot.ampsToDuty 51 = 85 ∧
    (51 : ℚ) / J1772_HIGH_RANGE_FACTOR + J1772_HIGH_RANGE_OFFSET = 422/5 ∧
    (51 : ℚ) / J1772_LOW_RANGE_FACTOR
      - ((51 : ℚ) / J1772_HIGH_RANGE_FACTOR + J1772_HIGH_RANGE_OFFSET) = 3/5 ∧
    Pilot.ampsToDuty (511/10) = 2111/25 := by
  refine ⟨?_, by norm_num [J1772_HIGH_RANGE_FACTOR, J1772_HIGH_RANGE_OFFSET],
    by norm_num [J1772_LOW_RANGE_FACTOR, J1772_HIGH_RANGE_FACTOR,
      J1772_HIGH_RANGE_OFFSET], ?_⟩ <;>
    norm_num [Pilot.ampsToDuty, constrain, MIN_CURRENT, MAX_CURRENT,
      J1772_LOW_RANGE_MAX_AMPS, J1772_LOW_RANGE_FACTOR, J1772_HIGH_RANGE_FACTOR,
      J1772_HIGH_RANGE_OFFSET]

/-- C6 counterexample: at 52 A (inside [6, 80]) the round trip fails:
`dutyToAmps (ampsToDuty 52) = 50.88`, which is 1.12 A away from 52 A, far
beyond the claimed 0.1 A. -/
theorem C6_counterexample :
    Pilot.dutyToAmps (Pilot.ampsToDuty 52) = 1272/25 ∧
    (6 : ℚ) ≤ 52 ∧ (52 : ℚ) ≤ 80 ∧
    (52 : ℚ) - 1272/25 > 1/10 := by
  refine ⟨?_, by norm_num, by norm_num, by norm_num⟩
  norm_num [Pilot.ampsToDuty, Pilot.dutyToAmps, constrain, MIN_CURRENT, MAX_CURRENT,
    J1772_LOW_RANGE_MAX_AMPS, J1772_LOW_RANGE_MAX_DUTY, J1772_LOW_RANGE_FACTOR,
    J1772_HIGH_RANGE_FACTOR, J1772_HIGH_RANGE_OFFSET]

/-- C6 (amended): `dutyToAmps ∘ ampsToDuty` is the exact identity on
[6, 51] and on (52.5, 80], but on (51, 52.5] the round trip misses by
(19/25)·a − 38.4, between 0.36 A and 1.5 A (always above 0.1 A); in the
other direction `ampsToDuty ∘ dutyToAmps` is the exact identity on the
whole image [10, 96] of [6, 80]. -/
theorem C6_roundtrip_amended :
    (∀ a : ℚ, 6 ≤ a → a ≤ 51 → Pilot.dutyToAmps (Pilot.ampsToDuty a) = a) ∧
    (∀ a : ℚ, 105/2 < a → a ≤ 80 → Pilot.dutyToAmps (Pilot.ampsToDuty a) = a) ∧
    (∀ a : ℚ, 51 < a → a ≤ 105/2 →
      a - Pilot.dutyToAmps (Pilot.ampsToDuty a) = 19/25 * a - 192/5) ∧
    (∀ d : ℚ, 10 ≤ d → d ≤ 96 → Pilot.ampsToDuty (Pilot.dutyToAmps d) = d) := by
  refine ⟨fun a h1 h2 => ?_, fun a h1 h2 => ?_, fun a h1 h2 => ?_, fun d h1 h2 => ?_⟩ <;>
    simp only [Pilot.ampsToDuty, Pilot.dutyToAmps, constrain, MIN_CURRENT, MAX_CURRENT,
      J1772_LOW_RANGE_MAX_AMPS, J1772_LOW_RANGE_MAX_DUTY, J1772_LOW_RANGE_FACTOR,
      J1772_HIGH_RANGE_FACTOR, J1772_HIGH_RANGE_OFFSET] <;>
    split_ifs <;>
    first
      | (field_simp; ring1)
      | linarith

/-- C6 witness: the amended round-trip law applied at 20 A, 60 A, the
failing 52 A, and duty 50 %. -/
theorem C6_roundtrip_amended_witness :
    Pilot.dutyToAmps (Pilot.ampsToDuty 20) = 20 ∧
    Pilot.dutyToAmps (Pilot.ampsToDuty 60) = 60 ∧
    (52 : ℚ) - Pilot.dutyToAmps (Pilot.ampsToDuty 52) = 19/25 * 52 - 192/5 ∧
    Pilot.ampsToDuty (Pilot.dutyToAmps 50) = 50 :=
  ⟨C6_roundtrip_amended.1 20 (by norm_num) (by norm_num),
   C6_roundtrip_amended.2.1 60 (by norm_num) (by norm_num),
   C6_roundtrip_amended.2.2.1 52 (by norm_num) (by norm_num),
   C6_roundtrip_amended.2.2.2 50 (by norm_num) (by norm_num)⟩

/-- C8 counterexample: `openImmediately` on a closed relay whose last
request timestamp is 1234 ms opens both states and the pin in the same call
but leaves the timestamp at 1234 — it does not reset it. -/
theorem C8_counterexample :
    ArduinoRelay.openImmediately
        { currentState := true, desiredState := true, lastCalledMillis := 1234, pin := true } =
      { currentState := false, desiredState := false, lastCalledMillis := 1234, pin := false } ∧
    (1234 : Nat) ≠ 0 :=
  ⟨rfl, by decide⟩

/-- C8 (amended): `Relay::openImmediately` sets both `desiredState` and
`currentState` to Open and drives the relay pin within the same call, and it
leaves the switch timestamp (`_lastCalledMillis`) unchanged — it does not
reset it. -/
theorem C8_openImmediately_amended (r : ArduinoRelayState) :
    (ArduinoRelay.openImmediately r).currentState = false ∧
    (ArduinoRelay.openImmediately r).desiredState = false ∧
    (ArduinoRelay.openImmediately r).pin = false ∧
    (ArduinoRelay.openImmediately r).lastCalledMillis = r.lastCalledMillis :=
  ⟨rfl, rfl, rfl, rfl⟩

/-- C10: `setCurrentTest` is a complete no-op (every field of the controller
state, including the pilot duty, is unchanged) when test mode is disabled. -/
theorem C10_setCurrentTest_noop (s : EvseState) (amps : ℚ)
    (h : s.currentTest = false) :
    EvseCharge.setCurrentTest s amps = s := by
  unfold EvseCharge.setCurrentTest
  rw [if_pos (by simp [h])]

/-- C10 witness: `setCurrentTest` at 10 A on the freshly set-up controller
(test mode off) returns the state unchanged. -/
theorem C10_setCurrentTest_noop_witness :
    EvseCharge.setCurrentTest (EvseCharge.setup {} 0) 10 = EvseCharge.setup {} 0 :=
  C10_setCurrentTest_noop (EvseCharge.setup {} 0) 10 rfl

/- ===== Frame lemmas: which fields each controller phase preserves ===== -/

theorem EvseCharge.applyCurrentLimit_state (s : EvseState) (now : Nat) :
    (EvseCharge.applyCurrentLimit s now).state = s.state := by
  unfold EvseCharge.applyCurrentLimit EvseCharge.applyRelayForCharging
  split_ifs <;> rfl

theorem EvseCharge.applyCurrentLimit_vehicleState (s : EvseState) (now : Nat) :
    (EvseCharge.applyCurrentLimit s now).vehicleState = s.vehicleState := by
  unfold EvseCharge.applyCurrentLimit EvseCharge.applyRelayForCharging
  split_ifs <;> rfl

theorem EvseCharge.applyCurrentLimit_errorLockout (s : EvseState) (now : Nat) :
    (EvseCharge.applyCurrentLimit s now).errorLockout = s.errorLockout := by
  unfold EvseCharge.applyCurrentLimit EvseCharge.applyRelayForCharging
  split_ifs <;> rfl

theorem EvseCharge.applyCurrentLimit_rcmTripped (s : EvseState) (now : Nat) :
    (EvseCharge.applyCurrentLimit s now).rcmTripped = s.rcmTripped := by
  unfold EvseCharge.applyCurrentLimit EvseCharge.applyRelayForCharging
  split_ifs <;> rfl

theorem EvseCharge.applyCurrentLimit_userPaused (s : EvseState) (now : Nat) :
    (EvseCharge.applyCurrentLimit s now).userPaused = s.userPaused := by
  unfold EvseCharge.applyCurrentLimit EvseCharge.applyRelayForCharging
  split_ifs <;> rfl

theorem EvseCharge.applyCurrentLimit_currentLimit (s : EvseState) (now : Nat) :
    (EvseCharge.applyCurrentLimit s now).currentLimit = s.currentLimit := by
  unfold EvseCharge.applyCurrentLimit EvseCharge.applyRelayForCharging
  split_ifs <;> rfl

theorem EvseCharge.applyCurrentLimit_currentTest (s : EvseState) (now : Nat) :
    (EvseCharge.applyCurrentLimit s now).currentTest = s.currentTest := by
  unfold EvseCharge.applyCurrentLimit EvseCharge.applyRelayForCharging
  split_ifs <;> rfl

theorem EvseCharge.applyCurrentLimit_rcmEnabled (s : EvseState) (now : Nat) :
    (EvseCharge.applyCurrentLimit s now).rcmEnabled = s.rcmEnabled := by
  unfold EvseCharge.applyCurrentLimit EvseCharge.applyRelayForCharging
  split_ifs <;> rfl

theorem EvseCharge.applyCurrentLimit_settings (s : EvseState) (now : Nat) :
    (EvseCharge.applyCurrentLimit s now).settings = s.settings := by
  unfold EvseCharge.applyCurrentLimit EvseCharge.applyRelayForCharging
  split_ifs <;> rfl

theorem EvseCharge.applyCurrentLimit_throttleAliveTimeout (s : EvseState) (now : Nat) :
    (EvseCharge.applyCurrentLimit s now).throttleAliveTimeout = s.throttleAliveTimeout := by
  unfold EvseCharge.applyCurrentLimit EvseCharge.applyRelayForCharging
  split_ifs <;> rfl

theorem EvseCharge.applyCurrentLimit_lastThrottleAliveTime (s : EvseState) (now : Nat) :
    (EvseCharge.applyCurrentLimit s now).lastThrottleAliveTime = s.lastThrottleAliveTime := by
  unfold EvseCharge.applyCurrentLimit EvseCharge.applyRelayForCharging
  split_ifs <;> rfl

theorem EvseCharge.applyCurrentLimit_lastThrottleRampTime (s : EvseState) (now : Nat) :
    (EvseCharge.applyCurrentLimit s now).lastThrottleRampTime = s.lastThrottleRampTime := by
  unfold EvseCharge.applyCurrentLimit EvseCharge.applyRelayForCharging
  split_ifs <;> rfl

theorem EvseCharge.applyCurrentLimit_lastRcmTestTime (s : EvseState) (now : Nat) :
    (EvseCharge.applyCurrentLimit s now).lastRcmTestTime = s.lastRcmTestTime := by
  unfold EvseCharge.applyCurrentLimit EvseCharge.applyRelayForCharging
  split_ifs <;> rfl

theorem EvseCharge.applyCurrentLimit_lastManagedVehicleState (s : EvseState) (now : Nat) :
    (EvseCharge.applyCurrentLimit s now).lastManagedVehicleState = s.lastManagedVehicleState := by
  unfold EvseCharge.applyCurrentLimit EvseCharge.applyRelayForCharging
  split_ifs <;> rfl

theorem EvseCharge.applyCurrentLimit_started (s : EvseState) (now : Nat) :
    (EvseCharge.applyCurrentLimit s now).started = s.started := by
  unfold EvseCharge.applyCurrentLimit EvseCharge.applyRelayForCharging
  split_ifs <;> rfl

theorem EvseCharge.stopCharging_vehicleState (s : EvseState) :
    (EvseCharge.stopCharging s).vehicleState = s.vehicleState := by
  unfold EvseCharge.stopCharging
  split_ifs <;> rfl

theorem EvseCharge.stopCharging_errorLockout (s : EvseState) :
    (EvseCharge.stopCharging s).errorLockout = s.errorLockout := by
  unfold EvseCharge.stopCharging
  split_ifs <;> rfl

theorem EvseCharge.stopCharging_rcmTripped (s : EvseState) :
    (EvseCharge.stopCharging s).rcmTripped = s.rcmTripped := by
  unfold EvseCharge.stopCharging
  split_ifs <;> rfl

theorem EvseCharge.stopCharging_currentLimit (s : EvseState) :
    (EvseCharge.stopCharging s).currentLimit = s.currentLimit := by
  unfold EvseCharge.stopCharging
  split_ifs <;> rfl

theorem EvseCharge.stopCharging_currentTest (s : EvseState) :
    (EvseCharge.stopCharging s).currentTest = s.currentTest := by
  unfold EvseCharge.stopCharging
  split_ifs <;> rfl

theorem EvseCharge.stopCharging_rcmEnabled (s : EvseState) :
    (EvseCharge.stopCharging s).rcmEnabled = s.rcmEnabled := by
  unfold EvseCharge.stopCharging
  split_ifs <;> rfl

theorem EvseCharge.stopCharging_settings (s : EvseState) :
    (EvseCharge.stopCharging s).settings = s.settings := by
  unfold EvseCharge.stopCharging
  split_ifs <;> rfl

theorem EvseCharge.stopCharging_throttleAliveTimeout (s : EvseState) :
    (EvseCharge.stopCharging s).throttleAliveTimeout = s.throttleAliveTimeout := by
  unfold EvseCharge.stopCharging
  split_ifs <;> rfl

theorem EvseCharge.stopCharging_lastThrottleAliveTime (s : EvseState) :
    (EvseCharge.stopCharging s).lastThrottleAliveTime = s.lastThrottleAliveTime := by
  unfold EvseCharge.stopCharging
  split_ifs <;> rfl

theorem EvseCharge.stopCharging_lastThrottleRampTime (s : EvseState) :
    (EvseCharge.stopCharging s).lastThrottleRampTime = s.lastThrottleRampTime := by
  unfold EvseCharge.stopCharging
  split_ifs <;> rfl

theorem EvseCharge.stopCharging_lastRcmTestTime (s : EvseState) :
    (EvseCharge.stopCharging s).lastRcmTestTime = s.lastRcmTestTime := by
  unfold EvseCharge.stopCharging
  split_ifs <;> rfl

theorem EvseCharge.stopCharging_lastManagedVehicleState (s : EvseState) :
    (EvseCharge.stopCharging s).lastManagedVehicleState = s.lastManagedVehicleState := by
  unfold EvseCharge.stopCharging
  split_ifs <;> rfl

theorem EvseCharge.stopCharging_pilot (s : EvseState) :
    (EvseCharge.stopCharging s).pilot = s.pilot := by
  unfold EvseCharge.stopCharging
  split_ifs <;> rfl

theorem EvseCharge.stopCharging_pausedAtLowLimit (s : EvseState) :
    (EvseCharge.stopCharging s).pausedAtLowLimit = s.pausedAtLowLimit := by
  unfold EvseCharge.stopCharging
  split_ifs <;> rfl

theorem EvseCharge.stopCharging_pausedSince (s : EvseState) :
    (EvseCharge.stopCharging s).pausedSince = s.pausedSince := by
  unfold EvseCharge.stopCharging
  split_ifs <;> rfl

theorem EvseCharge.stopCharging_state (s : EvseState) :
    (EvseCharge.stopCharging s).state = STATE_READY ∨
    (EvseCharge.stopCharging s).state = s.state := by
  unfold EvseCharge.stopCharging
  split_ifs <;> simp

theorem EvseCharge.stopCharging_userPaused (s : EvseState) :
    (EvseCharge.stopCharging s).userPaused = false := by
  unfold EvseCharge.stopCharging
  split_ifs <;> rfl

theorem EvseCharge.stopCharging_relay (s : EvseState) :
    (EvseCharge.stopCharging s).relay.desiredState = false ∧
    (EvseCharge.stopCharging s).relay.currentState = false := by
  unfold EvseCharge.stopCharging
  split_ifs <;> exact ⟨rfl, rfl⟩

theorem EvseCharge.applyCurrentLimit_desired_of_notPermissive (s : EvseState) (now : Nat)
    (h : ¬ chargePermissive s.vehicleState) :
    (EvseCharge.applyCurrentLimit s now).relay.desiredState = false := by
  unfold EvseCharge.applyCurrentLimit EvseCharge.applyRelayForCharging
  split_ifs <;> rfl

theorem EvseCharge.applyCurrentLimit_current_false (s : EvseState) (now : Nat)
    (h : s.relay.currentState = false) :
    (EvseCharge.applyCurrentLimit s now).relay.currentState = false := by
  unfold EvseCharge.applyCurrentLimit EvseCharge.applyRelayForCharging
  split_ifs <;> first | exact h | rfl


theorem EvseCharge.manageTransition_vehicleState (s : EvseState) :
    (EvseCharge.manageTransition s).vehicleState = s.vehicleState := by
  simp only [EvseCharge.manageTransition, EvseCharge.stopCharging]
  split_ifs <;> rfl

theorem EvseCharge.manageTransition_currentLimit (s : EvseState) :
    (EvseCharge.manageTransition s).currentLimit = s.currentLimit := by
  simp only [EvseCharge.manageTransition, EvseCharge.stopCharging]
  split_ifs <;> rfl

theorem EvseCharge.manageTransition_currentTest (s : EvseState) :
    (EvseCharge.manageTransition s).currentTest = s.currentTest := by
  simp only [EvseCharge.manageTransition, EvseCharge.stopCharging]
  split_ifs <;> rfl

theorem EvseCharge.manageTransition_settings (s : EvseState) :
    (EvseCharge.manageTransition s).settings = s.settings := by
  simp only [EvseCharge.manageTransition, EvseCharge.stopCharging]
  split_ifs <;> rfl

theorem EvseCharge.manageTransition_rcmEnabled (s : EvseState) :
    (EvseCharge.manageTransition s).rcmEnabled = s.rcmEnabled := by
  simp only [EvseCharge.manageTransition, EvseCharge.stopCharging]
  split_ifs <;> rfl

theorem EvseCharge.manageTransition_throttleAliveTimeout (s : EvseState) :
    (EvseCharge.manageTransition s).throttleAliveTimeout = s.throttleAliveTimeout := by
  simp only [EvseCharge.manageTransition, EvseCharge.stopCharging]
  split_ifs <;> rfl

theorem EvseCharge.manageTransition_lastThrottleAliveTime (s : EvseState) :
    (EvseCharge.manageTransition s).lastThrottleAliveTime = s.lastThrottleAliveTime := by
  simp only [EvseCharge.manageTransition, EvseCharge.stopCharging]
  split_ifs <;> rfl

theorem EvseCharge.manageTransition_lastThrottleRampTime (s : EvseState) :
    (EvseCharge.manageTransition s).lastThrottleRampTime = s.lastThrottleRampTime := by
  simp only [EvseCharge.manageTransition, EvseCharge.stopCharging]
  split_ifs <;> rfl

theorem EvseCharge.manageTransition_lastRcmTestTime (s : EvseState) :
    (EvseCharge.manageTransition s).lastRcmTestTime = s.lastRcmTestTime := by
  simp only [EvseCharge.manageTransition, EvseCharge.stopCharging]
  split_ifs <;> rfl

theorem EvseCharge.manageTransition_pilot (s : EvseState) :
    (EvseCharge.manageTransition s).pilot = s.pilot := by
  simp only [EvseCharge.manageTransition, EvseCharge.stopCharging]
  split_ifs <;> rfl

theorem EvseCharge.manageTransition_pausedAtLowLimit (s : EvseState) :
    (EvseCharge.manageTransition s).pausedAtLowLimit = s.pausedAtLowLimit := by
  simp only [EvseCharge.manageTransition, EvseCharge.stopCharging]
  split_ifs <;> rfl

theorem EvseCharge.manageTransition_pausedSince (s : EvseState) :
    (EvseCharge.manageTransition s).pausedSince = s.pausedSince := by
  simp only [EvseCharge.manageTransition, EvseCharge.stopCharging]
  split_ifs <;> rfl

theorem EvseCharge.manageTransition_current_false (s : EvseState)
    (h : s.relay.currentState = false) :
    (EvseCharge.manageTransition s).relay.currentState = false := by
  simp only [EvseCharge.manageTransition, EvseCharge.stopCharging]
  split_ifs <;> first | exact h | rfl

theorem EvseCharge.manageTransition_lockout (s : EvseState) :
    (EvseCharge.manageTransition s).errorLockout = false →
    s.errorLockout = false ∨
      (s.vehicleState = VEHICLE_NOT_CONNECTED ∧
       s.lastManagedVehicleState ≠ VEHICLE_NOT_CONNECTED ∧
       (EvseCharge.manageTransition s).vehicleState = VEHICLE_NOT_CONNECTED ∧
       (EvseCharge.manageTransition s).rcmTripped = false ∧
       (EvseCharge.manageTransition s).lastManagedVehicleState = VEHICLE_NOT_CONNECTED) := by
  simp only [EvseCharge.manageTransition, EvseCharge.stopCharging]
  split_ifs <;> intro h2 <;> simp_all
  all_goals exact Ne.symm (by assumption)

theorem EvseCharge.manageSwitch_state (s : EvseState) :
    (EvseCharge.manageSwitch s).state = s.state := by
  unfold EvseCharge.manageSwitch
  split <;> first | rfl | (split_ifs <;> rfl)

theorem EvseCharge.manageSwitch_vehicleState (s : EvseState) :
    (EvseCharge.manageSwitch s).vehicleState = s.vehicleState := by
  unfold EvseCharge.manageSwitch
  split <;> first | rfl | (split_ifs <;> rfl)

theorem EvseCharge.manageSwitch_errorLockout (s : EvseState) :
    (EvseCharge.manageSwitch s).errorLockout = s.errorLockout := by
  unfold EvseCharge.manageSwitch
  split <;> first | rfl | (split_ifs <;> rfl)

theorem EvseCharge.manageSwitch_rcmTripped (s : EvseState) :
    (EvseCharge.manageSwitch s).rcmTripped = s.rcmTripped := by
  unfold EvseCharge.manageSwitch
  split <;> first | rfl | (split_ifs <;> rfl)

theorem EvseCharge.manageSwitch_userPaused (s : EvseState) :
    (EvseCharge.manageSwitch s).userPaused = s.userPaused := by
  unfold EvseCharge.manageSwitch
  split <;> first | rfl | (split_ifs <;> rfl)

theorem EvseCharge.manageSwitch_currentLimit (s : EvseState) :
    (EvseCharge.manageSwitch s).currentLimit = s.currentLimit := by
  unfold EvseCharge.manageSwitch
  split <;> first | rfl | (split_ifs <;> rfl)

theorem EvseCharge.manageSwitch_currentTest (s : EvseState) :
    (EvseCharge.manageSwitch s).currentTest = s.currentTest := by
  unfold EvseCharge.manageSwitch
  split <;> first | rfl | (split_ifs <;> rfl)

theorem EvseCharge.manageSwitch_rcmEnabled (s : EvseState) :
    (EvseCharge.manageSwitch s).rcmEnabled = s.rcmEnabled := by
  unfold EvseCharge.manageSwitch
  split <;> first | rfl | (split_ifs <;> rfl)

theorem EvseCharge.manageSwitch_settings (s : EvseState) :
    (EvseCharge.manageSwitch s).settings = s.settings := by
  unfold EvseCharge.manageSwitch
  split <;> first | rfl | (split_ifs <;> rfl)

theorem EvseCharge.manageSwitch_throttleAliveTimeout (s : EvseState) :
    (EvseCharge.manageSwitch s).throttleAliveTimeout = s.throttleAliveTimeout := by
  unfold EvseCharge.manageSwitch
  split <;> first | rfl | (split_ifs <;> rfl)

theorem EvseCharge.manageSwitch_lastThrottleAliveTime (s : EvseState) :
    (EvseCharge.manageSwitch s).lastThrottleAliveTime = s.lastThrottleAliveTime := by
  unfold EvseCharge.manageSwitch
  split <;> first | rfl | (split_ifs <;> rfl)

theorem EvseCharge.manageSwitch_lastThrottleRampTime (s : EvseState) :
    (EvseCharge.manageSwitch s).lastThrottleRampTime = s.lastThrottleRampTime := by
  unfold EvseCharge.manageSwitch
  split <;> first | rfl | (split_ifs <;> rfl)

theorem EvseCharge.manageSwitch_lastRcmTestTime (s : EvseState) :
    (EvseCharge.manageSwitch s).lastRcmTestTime = s.lastRcmTestTime := by
  unfold EvseCharge.manageSwitch
  split <;> first | rfl | (split_ifs <;> rfl)

theorem EvseCharge.manageSwitch_lastManagedVehicleState (s : EvseState) :
    (EvseCharge.manageSwitch s).lastManagedVehicleState = s.lastManagedVehicleState := by
  unfold EvseCharge.manageSwitch
  split <;> first | rfl | (split_ifs <;> rfl)

theorem EvseCharge.manageSwitch_pausedAtLowLimit (s : EvseState) :
    (EvseCharge.manageSwitch s).pausedAtLowLimit = s.pausedAtLowLimit := by
  unfold EvseCharge.manageSwitch
  split <;> first | rfl | (split_ifs <;> rfl)

theorem EvseCharge.manageSwitch_pausedSince (s : EvseState) :
    (EvseCharge.manageSwitch s).pausedSince = s.pausedSince := by
  unfold EvseCharge.manageSwitch
  split <;> first | rfl | (split_ifs <;> rfl)

theorem EvseCharge.manageSwitch_desired_of_bad (s : EvseState)
    (h : badState s.vehicleState) :
    (EvseCharge.manageSwitch s).relay.desiredState = false := by
  unfold EvseCharge.manageSwitch
  split <;> first | rfl | (split_ifs <;> first | rfl | simp_all [badState])

theorem EvseCharge.manageSwitch_current_false (s : EvseState)
    (h : s.relay.currentState = false) :
    (EvseCharge.manageSwitch s).relay.currentState = false := by
  unfold EvseCharge.manageSwitch
  split <;> first | exact h | rfl | (split_ifs <;> exact h)

theorem badState_not_permissive (v : VEHICLE_STATE_T) (h : badState v) :
    ¬ chargePermissive v := by
  rcases h with h | h | h <;> subst h <;> decide

theorem EvseCharge.checkResumeFromLowLimit_state (s : EvseState) (now : Nat) :
    (EvseCharge.checkResumeFromLowLimit s now).state = s.state := by
  unfold EvseCharge.checkResumeFromLowLimit
  split_ifs <;> first | rfl | apply EvseCharge.applyCurrentLimit_state

theorem EvseCharge.checkResumeFromLowLimit_vehicleState (s : EvseState) (now : Nat) :
    (EvseCharge.checkResumeFromLowLimit s now).vehicleState = s.vehicleState := by
  unfold EvseCharge.checkResumeFromLowLimit
  split_ifs <;> first | rfl | apply EvseCharge.applyCurrentLimit_vehicleState

theorem EvseCharge.checkResumeFromLowLimit_errorLockout (s : EvseState) (now : Nat) :
    (EvseCharge.checkResumeFromLowLimit s now).errorLockout = s.errorLockout := by
  unfold EvseCharge.checkResumeFromLowLimit
  split_ifs <;> first | rfl | apply EvseCharge.applyCurrentLimit_errorLockout

theorem EvseCharge.checkResumeFromLowLimit_rcmTripped (s : EvseState) (now : Nat) :
    (EvseCharge.checkResumeFromLowLimit s now).rcmTripped = s.rcmTripped := by
  unfold EvseCharge.checkResumeFromLowLimit
  split_ifs <;> first | rfl | apply EvseCharge.applyCurrentLimit_rcmTripped

theorem EvseCharge.checkResumeFromLowLimit_userPaused (s : EvseState) (now : Nat) :
    (EvseCharge.checkResumeFromLowLimit s now).userPaused = s.userPaused := by
  unfold EvseCharge.checkResumeFromLowLimit
  split_ifs <;> first | rfl | apply EvseCharge.applyCurrentLimit_userPaused

theorem EvseCharge.checkResumeFromLowLimit_currentLimit (s : EvseState) (now : Nat) :
    (EvseCharge.checkResumeFromLowLimit s now).currentLimit = s.currentLimit := by
  unfold EvseCharge.checkResumeFromLowLimit
  split_ifs <;> first | rfl | apply EvseCharge.applyCurrentLimit_currentLimit

theorem EvseCharge.checkResumeFromLowLimit_currentTest (s : EvseState) (now : Nat) :
    (EvseCharge.checkResumeFromLowLimit s now).currentTest = s.currentTest := by
  unfold EvseCharge.checkResumeFromLowLimit
  split_ifs <;> first | rfl | apply EvseCharge.applyCurrentLimit_currentTest

theorem EvseCharge.checkResumeFromLowLimit_lastManagedVehicleState (s : EvseState) (now : Nat) :
    (EvseCharge.checkResumeFromLowLimit s now).lastManagedVehicleState = s.lastManagedVehicleState := by
  unfold EvseCharge.checkResumeFromLowLimit
  split_ifs <;> first | rfl | apply EvseCharge.applyCurrentLimit_lastManagedVehicleState

theorem EvseCharge.checkResumeFromLowLimit_throttleAliveTimeout (s : EvseState) (now : Nat) :
    (EvseCharge.checkResumeFromLowLimit s now).throttleAliveTimeout = s.throttleAliveTimeout := by
  unfold EvseCharge.checkResumeFromLowLimit
  split_ifs <;> first | rfl | apply EvseCharge.applyCurrentLimit_throttleAliveTimeout

theorem EvseCharge.checkResumeFromLowLimit_lastThrottleAliveTime (s : EvseState) (now : Nat) :
    (EvseCharge.checkResumeFromLowLimit s now).lastThrottleAliveTime = s.lastThrottleAliveTime := by
  unfold EvseCharge.checkResumeFromLowLimit
  split_ifs <;> first | rfl | apply EvseCharge.applyCurrentLimit_lastThrottleAliveTime

theorem EvseCharge.checkResumeFromLowLimit_lastThrottleRampTime (s : EvseState) (now : Nat) :
    (EvseCharge.checkResumeFromLowLimit s now).lastThrottleRampTime = s.lastThrottleRampTime := by
  unfold EvseCharge.checkResumeFromLowLimit
  split_ifs <;> first | rfl | apply EvseCharge.applyCurrentLimit_lastThrottleRampTime

theorem EvseCharge.checkResumeFromLowLimit_settings (s : EvseState) (now : Nat) :
    (EvseCharge.checkResumeFromLowLimit s now).settings = s.settings := by
  unfold EvseCharge.checkResumeFromLowLimit
  split_ifs <;> first | rfl | apply EvseCharge.applyCurrentLimit_settings

theorem EvseCharge.checkResumeFromLowLimit_lastRcmTestTime (s : EvseState) (now : Nat) :
    (EvseCharge.checkResumeFromLowLimit s now).lastRcmTestTime = s.lastRcmTestTime := by
  unfold EvseCharge.checkResumeFromLowLimit
  split_ifs <;> first | rfl | apply EvseCharge.applyCurrentLimit_lastRcmTestTime

theorem EvseCharge.checkResumeFromLowLimit_desired_bad (s : EvseState) (now : Nat)
    (h : badState s.vehicleState) (hd : s.relay.desiredState = false) :
    (EvseCharge.checkResumeFromLowLimit s now).relay.desiredState = false := by
  unfold EvseCharge.checkResumeFromLowLimit
  split_ifs <;>
    first
      | exact hd
      | exact EvseCharge.applyCurrentLimit_desired_of_notPermissive s now
          (badState_not_permissive _ h)

theorem EvseCharge.checkResumeFromLowLimit_current_false (s : EvseState) (now : Nat)
    (h : s.relay.currentState = false) :
    (EvseCharge.checkResumeFromLowLimit s now).relay.currentState = false := by
  unfold EvseCharge.checkResumeFromLowLimit
  split_ifs <;> first | exact h | exact EvseCharge.applyCurrentLimit_current_false s now h

theorem EvseCharge.setCurrentLimit_state (s : EvseState) (amps : ℚ) (now : Nat) :
    (EvseCharge.setCurrentLimit s amps now).state = s.state := by
  simp only [EvseCharge.setCurrentLimit]
  split_ifs <;> simp [EvseCharge.applyCurrentLimit_state]

theorem EvseCharge.setCurrentLimit_vehicleState (s : EvseState) (amps : ℚ) (now : Nat) :
    (EvseCharge.setCurrentLimit s amps now).vehicleState = s.vehicleState := by
  simp only [EvseCharge.setCurrentLimit]
  split_ifs <;> simp [EvseCharge.applyCurrentLimit_vehicleState]

theorem EvseCharge.setCurrentLimit_errorLockout (s : EvseState) (amps : ℚ) (now : Nat) :
    (EvseCharge.setCurrentLimit s amps now).errorLockout = s.errorLockout := by
  simp only [EvseCharge.setCurrentLimit]
  split_ifs <;> simp [EvseCharge.applyCurrentLimit_errorLockout]

theorem EvseCharge.setCurrentLimit_rcmTripped (s : EvseState) (amps : ℚ) (now : Nat) :
    (EvseCharge.setCurrentLimit s amps now).rcmTripped = s.rcmTripped := by
  simp only [EvseCharge.setCurrentLimit]
  split_ifs <;> simp [EvseCharge.applyCurrentLimit_rcmTripped]

theorem EvseCharge.setCurrentLimit_userPaused (s : EvseState) (amps : ℚ) (now : Nat) :
    (EvseCharge.setCurrentLimit s amps now).userPaused = s.userPaused := by
  simp only [EvseCharge.setCurrentLimit]
  split_ifs <;> simp [EvseCharge.applyCurrentLimit_userPaused]

theorem EvseCharge.setCurrentLimit_currentTest (s : EvseState) (amps : ℚ) (now : Nat) :
    (EvseCharge.setCurrentLimit s amps now).currentTest = s.currentTest := by
  simp only [EvseCharge.setCurrentLimit]
  split_ifs <;> simp [EvseCharge.applyCurrentLimit_currentTest]

theorem EvseCharge.setCurrentLimit_lastManagedVehicleState (s : EvseState) (amps : ℚ) (now : Nat) :
    (EvseCharge.setCurrentLimit s amps now).lastManagedVehicleState = s.lastManagedVehicleState := by
  simp only [EvseCharge.setCurrentLimit]
  split_ifs <;> simp [EvseCharge.applyCurrentLimit_lastManagedVehicleState]

theorem EvseCharge.setCurrentLimit_throttleAliveTimeout (s : EvseState) (amps : ℚ) (now : Nat) :
    (EvseCharge.setCurrentLimit s amps now).throttleAliveTimeout = s.throttleAliveTimeout := by
  simp only [EvseCharge.setCurrentLimit]
  split_ifs <;> simp [EvseCharge.applyCurrentLimit_throttleAliveTimeout]

theorem EvseCharge.setCurrentLimit_lastThrottleAliveTime (s : EvseState) (amps : ℚ) (now : Nat) :
    (EvseCharge.setCurrentLimit s amps now).lastThrottleAliveTime = s.lastThrottleAliveTime := by
  simp only [EvseCharge.setCurrentLimit]
  split_ifs <;> simp [EvseCharge.applyCurrentLimit_lastThrottleAliveTime]

theorem EvseCharge.setCurrentLimit_lastThrottleRampTime (s : EvseState) (amps : ℚ) (now : Nat) :
    (EvseCharge.setCurrentLimit s amps now).lastThrottleRampTime = s.lastThrottleRampTime := by
  simp only [EvseCharge.setCurrentLimit]
  split_ifs <;> simp [EvseCharge.applyCurrentLimit_lastThrottleRampTime]

theorem EvseCharge.setCurrentLimit_settings (s : EvseState) (amps : ℚ) (now : Nat) :
    (EvseCharge.setCurrentLimit s amps now).settings = s.settings := by
  simp only [EvseCharge.setCurrentLimit]
  split_ifs <;> simp [EvseCharge.applyCurrentLimit_settings]

theorem EvseCharge.setCurrentLimit_lastRcmTestTime (s : EvseState) (amps : ℚ) (now : Nat) :
    (EvseCharge.setCurrentLimit s amps now).lastRcmTestTime = s.lastRcmTestTime := by
  simp only [EvseCharge.setCurrentLimit]
  split_ifs <;> simp [EvseCharge.applyCurrentLimit_lastRcmTestTime]

theorem EvseCharge.setCurrentLimit_desired_bad (s : EvseState) (amps : ℚ) (now : Nat)
    (h : badState s.vehicleState) (hd : s.relay.desiredState = false) :
    (EvseCharge.setCurrentLimit s amps now).relay.desiredState = false := by
  simp only [EvseCharge.setCurrentLimit]
  split_ifs <;>
    first
      | exact hd
      | exact EvseCharge.applyCurrentLimit_desired_of_notPermissive _ now
          (badState_not_permissive _ h)

theorem EvseCharge.setCurrentLimit_current_false (s : EvseState) (amps : ℚ) (now : Nat)
    (h : s.relay.currentState = false) :
    (EvseCharge.setCurrentLimit s amps now).relay.currentState = false := by
  simp only [EvseCharge.setCurrentLimit]
  split_ifs <;> first | exact h | exact EvseCharge.applyCurrentLimit_current_false _ now h

theorem EvseCharge.throttleAliveStep_state (s : EvseState) (now : Nat) :
    (EvseCharge.throttleAliveStep s now).state = s.state := by
  unfold EvseCharge.throttleAliveStep
  split_ifs <;> first | rfl | apply EvseCharge.setCurrentLimit_state

theorem EvseCharge.throttleAliveStep_vehicleState (s : EvseState) (now : Nat) :
    (EvseCharge.throttleAliveStep s now).vehicleState = s.vehicleState := by
  unfold EvseCharge.throttleAliveStep
  split_ifs <;> first | rfl | apply EvseCharge.setCurrentLimit_vehicleState

theorem EvseCharge.throttleAliveStep_errorLockout (s : EvseState) (now : Nat) :
    (EvseCharge.throttleAliveStep s now).errorLockout = s.errorLockout := by
  unfold EvseCharge.throttleAliveStep
  split_ifs <;> first | rfl | apply EvseCharge.setCurrentLimit_errorLockout

theorem EvseCharge.throttleAliveStep_rcmTripped (s : EvseState) (now : Nat) :
    (EvseCharge.throttleAliveStep s now).rcmTripped = s.rcmTripped := by
  unfold EvseCharge.throttleAliveStep
  split_ifs <;> first | rfl | apply EvseCharge.setCurrentLimit_rcmTripped

theorem EvseCharge.throttleAliveStep_userPaused (s : EvseState) (now : Nat) :
    (EvseCharge.throttleAliveStep s now).userPaused = s.userPaused := by
  unfold EvseCharge.throttleAliveStep
  split_ifs <;> first | rfl | apply EvseCharge.setCurrentLimit_userPaused

theorem EvseCharge.throttleAliveStep_currentTest (s : EvseState) (now : Nat) :
    (EvseCharge.throttleAliveStep s now).currentTest = s.currentTest := by
  unfold EvseCharge.throttleAliveStep
  split_ifs <;> first | rfl | apply EvseCharge.setCurrentLimit_currentTest

theorem EvseCharge.throttleAliveStep_lastManagedVehicleState (s : EvseState) (now : Nat) :
    (EvseCharge.throttleAliveStep s now).lastManagedVehicleState = s.lastManagedVehicleState := by
  unfold EvseCharge.throttleAliveStep
  split_ifs <;> first | rfl | apply EvseCharge.setCurrentLimit_lastManagedVehicleState

theorem EvseCharge.throttleAliveStep_throttleAliveTimeout (s : EvseState) (now : Nat) :
    (EvseCharge.throttleAliveStep s now).throttleAliveTimeout = s.throttleAliveTimeout := by
  unfold EvseCharge.throttleAliveStep
  split_ifs <;> first | rfl | apply EvseCharge.setCurrentLimit_throttleAliveTimeout

theorem EvseCharge.throttleAliveStep_lastThrottleAliveTime (s : EvseState) (now : Nat) :
    (EvseCharge.throttleAliveStep s now).lastThrottleAliveTime = s.lastThrottleAliveTime := by
  unfold EvseCharge.throttleAliveStep
  split_ifs <;> first | rfl | apply EvseCharge.setCurrentLimit_lastThrottleAliveTime

theorem EvseCharge.throttleAliveStep_settings (s : EvseState) (now : Nat) :
    (EvseCharge.throttleAliveStep s now).settings = s.settings := by
  unfold EvseCharge.throttleAliveStep
  split_ifs <;> first | rfl | apply EvseCharge.setCurrentLimit_settings

theorem EvseCharge.throttleAliveStep_lastRcmTestTime (s : EvseState) (now : Nat) :
    (EvseCharge.throttleAliveStep s now).lastRcmTestTime = s.lastRcmTestTime := by
  unfold EvseCharge.throttleAliveStep
  split_ifs <;> first | rfl | apply EvseCharge.setCurrentLimit_lastRcmTestTime

theorem EvseCharge.throttleAliveStep_desired_bad (s : EvseState) (now : Nat)
    (h : badState s.vehicleState) (hd : s.relay.desiredState = false) :
    (EvseCharge.throttleAliveStep s now).relay.desiredState = false := by
  unfold EvseCharge.throttleAliveStep
  split_ifs <;> first | exact hd | exact EvseCharge.setCurrentLimit_desired_bad s _ now h hd

theorem EvseCharge.throttleAliveStep_current_false (s : EvseState) (now : Nat)
    (h : s.relay.currentState = false) :
    (EvseCharge.throttleAliveStep s now).relay.currentState = false := by
  unfold EvseCharge.throttleAliveStep
  split_ifs <;> first | exact h | exact EvseCharge.setCurrentLimit_current_false s _ now h

theorem EvseCharge.rcmTriggerStep_vehicleState (s : EvseState) (b : Bool) :
    (EvseCharge.rcmTriggerStep s b).vehicleState = s.vehicleState := by
  simp only [EvseCharge.rcmTriggerStep, EvseCharge.stopCharging]
  split_ifs <;> rfl

theorem EvseCharge.rcmTriggerStep_currentLimit (s : EvseState) (b : Bool) :
    (EvseCharge.rcmTriggerStep s b).currentLimit = s.currentLimit := by
  simp only [EvseCharge.rcmTriggerStep, EvseCharge.stopCharging]
  split_ifs <;> rfl

theorem EvseCharge.rcmTriggerStep_currentTest (s : EvseState) (b : Bool) :
    (EvseCharge.rcmTriggerStep s b).currentTest = s.currentTest := by
  simp only [EvseCharge.rcmTriggerStep, EvseCharge.stopCharging]
  split_ifs <;> rfl

theorem EvseCharge.rcmTriggerStep_settings (s : EvseState) (b : Bool) :
    (EvseCharge.rcmTriggerStep s b).settings = s.settings := by
  simp only [EvseCharge.rcmTriggerStep, EvseCharge.stopCharging]
  split_ifs <;> rfl

theorem EvseCharge.rcmTriggerStep_rcmEnabled (s : EvseState) (b : Bool) :
    (EvseCharge.rcmTriggerStep s b).rcmEnabled = s.rcmEnabled := by
  simp only [EvseCharge.rcmTriggerStep, EvseCharge.stopCharging]
  split_ifs <;> rfl

theorem EvseCharge.rcmTriggerStep_lastManagedVehicleState (s : EvseState) (b : Bool) :
    (EvseCharge.rcmTriggerStep s b).lastManagedVehicleState = s.lastManagedVehicleState := by
  simp only [EvseCharge.rcmTriggerStep, EvseCharge.stopCharging]
  split_ifs <;> rfl

theorem EvseCharge.rcmTriggerStep_pilot (s : EvseState) (b : Bool) :
    (EvseCharge.rcmTriggerStep s b).pilot = s.pilot := by
  simp only [EvseCharge.rcmTriggerStep, EvseCharge.stopCharging]
  split_ifs <;> rfl

theorem EvseCharge.rcmTriggerStep_throttleAliveTimeout (s : EvseState) (b : Bool) :
    (EvseCharge.rcmTriggerStep s b).throttleAliveTimeout = s.throttleAliveTimeout := by
  simp only [EvseCharge.rcmTriggerStep, EvseCharge.stopCharging]
  split_ifs <;> rfl

theorem EvseCharge.rcmTriggerStep_lastThrottleAliveTime (s : EvseState) (b : Bool) :
    (EvseCharge.rcmTriggerStep s b).lastThrottleAliveTime = s.lastThrottleAliveTime := by
  simp only [EvseCharge.rcmTriggerStep, EvseCharge.stopCharging]
  split_ifs <;> rfl

theorem EvseCharge.rcmTriggerStep_lastThrottleRampTime (s : EvseState) (b : Bool) :
    (EvseCharge.rcmTriggerStep s b).lastThrottleRampTime = s.lastThrottleRampTime := by
  simp only [EvseCharge.rcmTriggerStep, EvseCharge.stopCharging]
  split_ifs <;> rfl

theorem EvseCharge.rcmTriggerStep_lockout_mono (s : EvseState) (b : Bool)
    (h : s.errorLockout = true) :
    (EvseCharge.rcmTriggerStep s b).errorLockout = true := by
  simp only [EvseCharge.rcmTriggerStep, EvseCharge.stopCharging]
  split_ifs <;> first | exact h | rfl

theorem EvseCharge.rcmTriggerStep_desired_false (s : EvseState) (b : Bool)
    (hd : s.relay.desiredState = false) :
    (EvseCharge.rcmTriggerStep s b).relay.desiredState = false := by
  simp only [EvseCharge.rcmTriggerStep, EvseCharge.stopCharging]
  split_ifs <;> first | exact hd | rfl

theorem EvseCharge.rcmPeriodicStep_vehicleState (s : EvseState) (now : Nat) (ok : Bool) :
    (EvseCharge.rcmPeriodicStep s now ok).vehicleState = s.vehicleState := by
  unfold EvseCharge.rcmPeriodicStep
  split_ifs <;> rfl

theorem EvseCharge.rcmPeriodicStep_currentLimit (s : EvseState) (now : Nat) (ok : Bool) :
    (EvseCharge.rcmPeriodicStep s now ok).currentLimit = s.currentLimit := by
  unfold EvseCharge.rcmPeriodicStep
  split_ifs <;> rfl

theorem EvseCharge.rcmPeriodicStep_currentTest (s : EvseState) (now : Nat) (ok : Bool) :
    (EvseCharge.rcmPeriodicStep s now ok).currentTest = s.currentTest := by
  unfold EvseCharge.rcmPeriodicStep
  split_ifs <;> rfl

theorem EvseCharge.rcmPeriodicStep_settings (s : EvseState) (now : Nat) (ok : Bool) :
    (EvseCharge.rcmPeriodicStep s now ok).settings = s.settings := by
  unfold EvseCharge.rcmPeriodicStep
  split_ifs <;> rfl

theorem EvseCharge.rcmPeriodicStep_rcmEnabled (s : EvseState) (now : Nat) (ok : Bool) :
    (EvseCharge.rcmPeriodicStep s now ok).rcmEnabled = s.rcmEnabled := by
  unfold EvseCharge.rcmPeriodicStep
  split_ifs <;> rfl

theorem EvseCharge.rcmPeriodicStep_lastManagedVehicleState (s : EvseState) (now : Nat) (ok : Bool) :
    (EvseCharge.rcmPeriodicStep s now ok).lastManagedVehicleState = s.lastManagedVehicleState := by
  unfold EvseCharge.rcmPeriodicStep
  split_ifs <;> rfl

theorem EvseCharge.rcmPeriodicStep_pilot (s : EvseState) (now : Nat) (ok : Bool) :
    (EvseCharge.rcmPeriodicStep s now ok).pilot = s.pilot := by
  unfold EvseCharge.rcmPeriodicStep
  split_ifs <;> rfl

theorem EvseCharge.rcmPeriodicStep_throttleAliveTimeout (s : EvseState) (now : Nat) (ok : Bool) :
    (EvseCharge.rcmPeriodicStep s now ok).throttleAliveTimeout = s.throttleAliveTimeout := by
  unfold EvseCharge.rcmPeriodicStep
  split_ifs <;> rfl

theorem EvseCharge.rcmPeriodicStep_lastThrottleAliveTime (s : EvseState) (now : Nat) (ok : Bool) :
    (EvseCharge.rcmPeriodicStep s now ok).lastThrottleAliveTime = s.lastThrottleAliveTime := by
  unfold EvseCharge.rcmPeriodicStep
  split_ifs <;> rfl

theorem EvseCharge.rcmPeriodicStep_lastThrottleRampTime (s : EvseState) (now : Nat) (ok : Bool) :
    (EvseCharge.rcmPeriodicStep s now ok).lastThrottleRampTime = s.lastThrottleRampTime := by
  unfold EvseCharge.rcmPeriodicStep
  split_ifs <;> rfl

theorem EvseCharge.rcmPeriodicStep_state (s : EvseState) (now : Nat) (ok : Bool) :
    (EvseCharge.rcmPeriodicStep s now ok).state = s.state := by
  unfold EvseCharge.rcmPeriodicStep
  split_ifs <;> rfl

theorem EvseCharge.rcmPeriodicStep_userPaused (s : EvseState) (now : Nat) (ok : Bool) :
    (EvseCharge.rcmPeriodicStep s now ok).userPaused = s.userPaused := by
  unfold EvseCharge.rcmPeriodicStep
  split_ifs <;> rfl

theorem EvseCharge.rcmPeriodicStep_lockout_mono (s : EvseState) (now : Nat) (ok : Bool)
    (h : s.errorLockout = true) :
    (EvseCharge.rcmPeriodicStep s now ok).errorLockout = true := by
  unfold EvseCharge.rcmPeriodicStep
  split_ifs <;> first | exact h | rfl

theorem EvseCharge.rcmPeriodicStep_desired_false (s : EvseState) (now : Nat) (ok : Bool)
    (hd : s.relay.desiredState = false) :
    (EvseCharge.rcmPeriodicStep s now ok).relay.desiredState = false := by
  unfold EvseCharge.rcmPeriodicStep
  split_ifs <;> first | exact hd | rfl
theorem EvseCharge.updateVehicleState_errorLockout (s : EvseState)
    (sample : Option (Int × Int)) (now : Nat) :
    (EvseCharge.updateVehicleState s sample now).errorLockout = s.errorLockout := by
  simp only [EvseCharge.updateVehicleState]
  split_ifs <;>
    simp [EvseCharge.applyCurrentLimit_errorLockout, EvseCharge.stopCharging_errorLockout]

theorem EvseCharge.updateVehicleState_rcmTripped (s : EvseState)
    (sample : Option (Int × Int)) (now : Nat) :
    (EvseCharge.updateVehicleState s sample now).rcmTripped = s.rcmTripped := by
  simp only [EvseCharge.updateVehicleState]
  split_ifs <;>
    simp [EvseCharge.applyCurrentLimit_rcmTripped, EvseCharge.stopCharging_rcmTripped]

theorem EvseCharge.updateVehicleState_lastManagedVehicleState (s : EvseState)
    (sample : Option (Int × Int)) (now : Nat) :
    (EvseCharge.updateVehicleState s sample now).lastManagedVehicleState = s.lastManagedVehicleState := by
  simp only [EvseCharge.updateVehicleState]
  split_ifs <;>
    simp [EvseCharge.applyCurrentLimit_lastManagedVehicleState, EvseCharge.stopCharging_lastManagedVehicleState]

theorem EvseCharge.updateVehicleState_currentTest (s : EvseState)
    (sample : Option (Int × Int)) (now : Nat) :
    (EvseCharge.updateVehicleState s sample now).currentTest = s.currentTest := by
  simp only [EvseCharge.updateVehicleState]
  split_ifs <;>
    simp [EvseCharge.applyCurrentLimit_currentTest, EvseCharge.stopCharging_currentTest]

theorem EvseCharge.updateVehicleState_currentLimit (s : EvseState)
    (sample : Option (Int × Int)) (now : Nat) :
    (EvseCharge.updateVehicleState s sample now).currentLimit = s.currentLimit := by
  simp only [EvseCharge.updateVehicleState]
  split_ifs <;>
    simp [EvseCharge.applyCurrentLimit_currentLimit, EvseCharge.stopCharging_currentLimit]

theorem EvseCharge.updateVehicleState_settings (s : EvseState)
    (sample : Option (Int × Int)) (now : Nat) :
    (EvseCharge.updateVehicleState s sample now).settings = s.settings := by
  simp only [EvseCharge.updateVehicleState]
  split_ifs <;>
    simp [EvseCharge.applyCurrentLimit_settings, EvseCharge.stopCharging_settings]

theorem EvseCharge.updateVehicleState_throttleAliveTimeout (s : EvseState)
    (sample : Option (Int × Int)) (now : Nat) :
    (EvseCharge.updateVehicleState s sample now).throttleAliveTimeout = s.throttleAliveTimeout := by
  simp only [EvseCharge.updateVehicleState]
  split_ifs <;>
    simp [EvseCharge.applyCurrentLimit_throttleAliveTimeout, EvseCharge.stopCharging_throttleAliveTimeout]

theorem EvseCharge.updateVehicleState_lastThrottleAliveTime (s : EvseState)
    (sample : Option (Int × Int)) (now : Nat) :
    (EvseCharge.updateVehicleState s sample now).lastThrottleAliveTime = s.lastThrottleAliveTime := by
  simp only [EvseCharge.updateVehicleState]
  split_ifs <;>
    simp [EvseCharge.applyCurrentLimit_lastThrottleAliveTime, EvseCharge.stopCharging_lastThrottleAliveTime]

theorem EvseCharge.updateVehicleState_lastThrottleRampTime (s : EvseState)
    (sample : Option (Int × Int)) (now : Nat) :
    (EvseCharge.updateVehicleState s sample now).lastThrottleRampTime = s.lastThrottleRampTime := by
  simp only [EvseCharge.updateVehicleState]
  split_ifs <;>
    simp [EvseCharge.applyCurrentLimit_lastThrottleRampTime, EvseCharge.stopCharging_lastThrottleRampTime]

theorem EvseCharge.updateVehicleState_lastRcmTestTime (s : EvseState)
    (sample : Option (Int × Int)) (now : Nat) :
    (EvseCharge.updateVehicleState s sample now).lastRcmTestTime = s.lastRcmTestTime := by
  simp only [EvseCharge.updateVehicleState]
  split_ifs <;>
    simp [EvseCharge.applyCurrentLimit_lastRcmTestTime, EvseCharge.stopCharging_lastRcmTestTime]

theorem EvseCharge.updateVehicleState_current_false (s : EvseState)
    (sample : Option (Int × Int)) (now : Nat)
    (h : s.relay.currentState = false) :
    (EvseCharge.updateVehicleState s sample now).relay.currentState = false := by
  simp only [EvseCharge.updateVehicleState]
  split_ifs <;>
    first
      | exact h
      | (apply EvseCharge.applyCurrentLimit_current_false
         first
           | exact (EvseCharge.stopCharging_relay _).2
           | exact h)

theorem EvseCharge.managePwmAndRelay_desired_bad (s : EvseState)
    (h : badState s.vehicleState) :
    (EvseCharge.managePwmAndRelay s).relay.desiredState = false := by
  unfold EvseCharge.managePwmAndRelay
  split_ifs
  · rfl
  · apply EvseCharge.manageSwitch_desired_of_bad
    rw [EvseCharge.manageTransition_vehicleState]
    exact h

theorem EvseCharge.managePwmAndRelay_current_false (s : EvseState)
    (h : s.relay.currentState = false) :
    (EvseCharge.managePwmAndRelay s).relay.currentState = false := by
  unfold EvseCharge.managePwmAndRelay
  split_ifs
  · exact h
  · exact EvseCharge.manageSwitch_current_false _
      (EvseCharge.manageTransition_current_false _ h)

theorem EvseCharge.managePwmAndRelay_vehicleState (s : EvseState) :
    (EvseCharge.managePwmAndRelay s).vehicleState = s.vehicleState := by
  unfold EvseCharge.managePwmAndRelay
  split_ifs
  · rfl
  · rw [EvseCharge.manageSwitch_vehicleState, EvseCharge.manageTransition_vehicleState]

theorem EvseCharge.managePwmAndRelay_lastManaged_of_same (s : EvseState)
    (h : s.vehicleState = s.lastManagedVehicleState) :
    (EvseCharge.managePwmAndRelay s).lastManagedVehicleState = s.lastManagedVehicleState := by
  unfold EvseCharge.managePwmAndRelay EvseCharge.manageTransition
  split_ifs <;>
    first
      | rfl
      | exact EvseCharge.manageSwitch_lastManagedVehicleState s
      | simp_all

theorem EvseCharge.managePwmAndRelay_lockout (s : EvseState) :
    (EvseCharge.managePwmAndRelay s).errorLockout = false →
    s.errorLockout = false ∨
      (s.vehicleState = VEHICLE_NOT_CONNECTED ∧
       s.lastManagedVehicleState ≠ VEHICLE_NOT_CONNECTED ∧
       (EvseCharge.managePwmAndRelay s).vehicleState = VEHICLE_NOT_CONNECTED ∧
       (EvseCharge.managePwmAndRelay s).rcmTripped = false ∧
       (EvseCharge.managePwmAndRelay s).lastManagedVehicleState = VEHICLE_NOT_CONNECTED) := by
  unfold EvseCharge.managePwmAndRelay
  split_ifs with hct
  · intro h2
    exact Or.inl h2
  · rw [EvseCharge.manageSwitch_errorLockout, EvseCharge.manageSwitch_vehicleState,
      EvseCharge.manageSwitch_rcmTripped, EvseCharge.manageSwitch_lastManagedVehicleState]
    exact EvseCharge.manageTransition_lockout s

theorem EvseCharge.startCharging_vehicleState (s : EvseState) (now : Nat) (st : Bool) :
    (EvseCharge.startCharging s now st).vehicleState = s.vehicleState := by
  unfold EvseCharge.startCharging
  split_ifs <;> first | rfl | apply EvseCharge.applyCurrentLimit_vehicleState

theorem EvseCharge.startCharging_lastManaged (s : EvseState) (now : Nat) (st : Bool) :
    (EvseCharge.startCharging s now st).lastManagedVehicleState
      = s.lastManagedVehicleState := by
  unfold EvseCharge.startCharging
  split_ifs <;> first | rfl | apply EvseCharge.applyCurrentLimit_lastManagedVehicleState

theorem EvseCharge.startCharging_lockout_mono (s : EvseState) (now : Nat) (st : Bool)
    (h : s.errorLockout = true) :
    (EvseCharge.startCharging s now st).errorLockout = true := by
  unfold EvseCharge.startCharging
  split_ifs <;>
    first
      | exact h
      | rfl
      | (rw [EvseCharge.applyCurrentLimit_errorLockout]; exact h)

theorem EvseCharge.startCharging_noop (s : EvseState) (now : Nat) (st : Bool)
    (h : s.errorLockout = true ∨ s.state = STATE_CHARGING ∨ ¬ chargePermissive s.vehicleState) :
    EvseCharge.startCharging s now st = s := by
  unfold EvseCharge.startCharging
  rcases h with h | h | h <;> simp [h]

theorem EvseCharge.startCharging_bad (s : EvseState) (now : Nat) (st : Bool)
    (h : badState s.vehicleState) :
    EvseCharge.startCharging s now st = s :=
  EvseCharge.startCharging_noop s now st (Or.inr (Or.inr (badState_not_permissive _ h)))

theorem EvseCharge.pauseCharging_errorLockout (s : EvseState) :
    (EvseCharge.pauseCharging s).errorLockout = s.errorLockout := by
  unfold EvseCharge.pauseCharging
  split_ifs <;> rfl

theorem EvseCharge.pauseCharging_vehicleState (s : EvseState) :
    (EvseCharge.pauseCharging s).vehicleState = s.vehicleState := by
  unfold EvseCharge.pauseCharging
  split_ifs <;> rfl

theorem EvseCharge.pauseCharging_desired_false (s : EvseState)
    (hd : s.relay.desiredState = false) :
    (EvseCharge.pauseCharging s).relay.desiredState = false := by
  unfold EvseCharge.pauseCharging
  split_ifs <;> first | rfl | exact hd

theorem EvseCharge.startCharging_success (s : EvseState) (now : Nat) (st : Bool)
    (h1 : s.errorLockout = false) (h2 : s.state ≠ STATE_CHARGING)
    (h3 : chargePermissive s.vehicleState) (h4 : s.rcmEnabled = false ∨ st = true) :
    (EvseCharge.startCharging s now st).state = STATE_CHARGING ∧
    (EvseCharge.startCharging s now st).lastThrottleAliveTime = now % U32 ∧
    (EvseCharge.startCharging s now st).userPaused = false := by
  unfold EvseCharge.startCharging
  rw [if_neg (by simp [h1]), if_neg h2, if_neg (by simp [h3]),
    if_neg (by rcases h4 with h4 | h4 <;> simp [h4])]
  exact ⟨by rw [EvseCharge.applyCurrentLimit_state],
    by rw [EvseCharge.applyCurrentLimit_lastThrottleAliveTime],
    by rw [EvseCharge.applyCurrentLimit_userPaused]⟩

theorem EvseCharge.startCharging_rcmfail (s : EvseState) (now : Nat)
    (h1 : s.errorLockout = false) (h2 : s.state ≠ STATE_CHARGING)
    (h3 : chargePermissive s.vehicleState) (hr : s.rcmEnabled = true) :
    EvseCharge.startCharging s now false =
      { s with rcmTripped := true, errorLockout := true,
               relay := Relay.openImmediately s.relay } := by
  unfold EvseCharge.startCharging
  rw [if_neg (by simp [h1]), if_neg h2, if_neg (by simp [h3]), if_pos ⟨hr, rfl⟩]

/-- C3: the `startCharging` contract. With the error lockout active, with a
charge already running, or with the vehicle not in a charge-permissive state
the call is a complete no-op; with the preconditions met but RCM enabled and
the pre-charge self-test failing, the charge state stays `STATE_READY` and
both `errorLockout` and `rcmTripped` are latched; otherwise the controller
enters `STATE_CHARGING` and the ThrottleAlive timer is reset to the current
time. -/
theorem C3_startCharging_contract :
    (∀ (s : EvseState) (now : Nat) (st : Bool),
      s.errorLockout = true ∨ s.state = STATE_CHARGING ∨ ¬ chargePermissive s.vehicleState →
      EvseCharge.startCharging s now st = s) ∧
    (∀ (s : EvseState) (now : Nat),
      s.errorLockout = false → s.state ≠ STATE_CHARGING → chargePermissive s.vehicleState →
      s.rcmEnabled = true →
      (EvseCharge.startCharging s now false).state = STATE_READY ∧
      (EvseCharge.startCharging s now false).errorLockout = true ∧
      (EvseCharge.startCharging s now false).rcmTripped = true) ∧
    (∀ (s : EvseState) (now : Nat) (st : Bool),
      s.errorLockout = false → s.state ≠ STATE_CHARGING → chargePermissive s.vehicleState →
      s.rcmEnabled = false ∨ st = true →
      (EvseCharge.startCharging s now st).state = STATE_CHARGING ∧
      (EvseCharge.startCharging s now st).lastThrottleAliveTime = now % U32) := by
  refine ⟨EvseCharge.startCharging_noop, fun s now h1 h2 h3 hr => ?_, fun s now st h1 h2 h3 h4 => ?_⟩
  · rw [EvseCharge.startCharging_rcmfail s now h1 h2 h3 hr]
    have hready : s.state = STATE_READY := by
      cases hst : s.state
      · rfl
      · exact absurd hst h2
    exact ⟨hready, rfl, rfl⟩
  · exact ⟨(EvseCharge.startCharging_success s now st h1 h2 h3 h4).1,
      (EvseCharge.startCharging_success s now st h1 h2 h3 h4).2.1⟩

/-- C3 witness: the contract applied at concrete states — a locked-out boot
state (no-op), an unlocked ready state with a failing RCM self-test
(lockout latch), and the same state with a passing self-test (charge
starts, ThrottleAlive timer reset). -/
theorem C3_startCharging_contract_witness :
    EvseCharge.startCharging bootState 5 true = bootState ∧
    (EvseCharge.startCharging readyState 7 false).errorLockout = true ∧
    (EvseCharge.startCharging readyState 9 true).state = STATE_CHARGING :=
  ⟨C3_startCharging_contract.1 bootState 5 true (Or.inl rfl),
   (C3_startCharging_contract.2.1 readyState 7 rfl (by decide) (by decide) rfl).2.1,
   (C3_startCharging_contract.2.2 readyState 9 true rfl (by decide) (by decide) (Or.inr rfl)).1⟩

/-- C9: every `startCharging` call that actually transitions the charge
state from not-charging to `STATE_CHARGING` clears the user-pause flag, so
`isPaused()` returns false immediately afterwards. -/
theorem C9_start_clears_pause (s : EvseState) (now : Nat) (st : Bool)
    (hpre : s.state ≠ STATE_CHARGING)
    (hpost : (EvseCharge.startCharging s now st).state = STATE_CHARGING) :
    EvseCharge.isPaused (EvseCharge.startCharging s now st) = false := by
  unfold EvseCharge.isPaused
  unfold EvseCharge.startCharging at hpost ⊢
  split_ifs at hpost ⊢
  all_goals
    first
      | exact absurd hpost hpre
      | rw [EvseCharge.applyCurrentLimit_userPaused]

/-- C9 witness: starting from a paused, unlocked, vehicle-ready state the
charge actually starts and `isPaused` reports false afterwards. -/
theorem C9_start_clears_pause_witness :
    EvseCharge.isPaused (EvseCharge.startCharging pausedReadyState 3 true) = false :=
  C9_start_clears_pause pausedReadyState 3 true (by decide)
    (EvseCharge.startCharging_success pausedReadyState 3 true rfl (by decide) (by decide)
      (Or.inr rfl)).1

theorem EvseCharge.prethrottle_lockout (s : EvseState) (i : LoopInput)
    (h1 : s.errorLockout = true)
    (h2 : (EvseCharge.prethrottle s i).errorLockout = false) :
    (EvseCharge.prethrottle s i).vehicleState = VEHICLE_NOT_CONNECTED ∧
    (EvseCharge.prethrottle s i).rcmTripped = false ∧
    (EvseCharge.prethrottle s i).lastManagedVehicleState = VEHICLE_NOT_CONNECTED ∧
    s.lastManagedVehicleState ≠ VEHICLE_NOT_CONNECTED := by
  simp only [EvseCharge.prethrottle] at h2 ⊢
  rw [EvseCharge.checkResumeFromLowLimit_errorLockout] at h2
  have hXlock :
      (EvseCharge.updateVehicleState
        { EvseCharge.rcmPeriodicStep (EvseCharge.rcmTriggerStep s i.rcmTriggered)
            i.now i.rcmSelfTestOk with
          relay := Relay.loop (EvseCharge.rcmPeriodicStep
            (EvseCharge.rcmTriggerStep s i.rcmTriggered) i.now i.rcmSelfTestOk).relay i.now }
        i.sample i.now).errorLockout = true := by
    rw [EvseCharge.updateVehicleState_errorLockout]
    exact EvseCharge.rcmPeriodicStep_lockout_mono _ _ _
      (EvseCharge.rcmTriggerStep_lockout_mono _ _ h1)
  rcases EvseCharge.managePwmAndRelay_lockout _ h2 with hfalse | ⟨_, hlm, hkv, hkr, hklm⟩
  · rw [hXlock] at hfalse
    exact absurd hfalse (by decide)
  · refine ⟨?_, ?_, ?_, ?_⟩
    · rw [EvseCharge.checkResumeFromLowLimit_vehicleState]
      exact hkv
    · rw [EvseCharge.checkResumeFromLowLimit_rcmTripped]
      exact hkr
    · rw [EvseCharge.checkResumeFromLowLimit_lastManagedVehicleState]
      exact hklm
    · simp only [EvseCharge.updateVehicleState_lastManagedVehicleState,
        EvseCharge.rcmPeriodicStep_lastManagedVehicleState,
        EvseCharge.rcmTriggerStep_lastManagedVehicleState] at hlm
      exact hlm

/-- C1: fail-safe error lockout. `errorLockout` is initialised TRUE by
`setup` at every boot; whenever a `loop` cycle takes it from TRUE to FALSE,
the committed vehicle state of that cycle is `VEHICLE_NOT_CONNECTED`, the
state machine observed the transition into it (the previously managed state
was not `VEHICLE_NOT_CONNECTED`), and the same cycle also resets
`rcmTripped` to FALSE; and none of the public operations `startCharging`,
`stopCharging`, `pauseCharging`, `setCurrentLimit`, `setRcmEnabled` ever
takes `errorLockout` from TRUE to FALSE. -/
theorem C1_error_lockout_latch :
    (∀ (settings : ChargingSettings) (now : Nat),
      (EvseCharge.setup settings now).errorLockout = true) ∧
    (∀ (s : EvseState) (i : LoopInput),
      s.errorLockout = true → (EvseCharge.loop s i).errorLockout = false →
      (EvseCharge.loop s i).vehicleState = VEHICLE_NOT_CONNECTED ∧
      (EvseCharge.loop s i).rcmTripped = false ∧
      (EvseCharge.loop s i).lastManagedVehicleState = VEHICLE_NOT_CONNECTED ∧
      s.lastManagedVehicleState ≠ VEHICLE_NOT_CONNECTED) ∧
    (∀ (s : EvseState) (now : Nat) (st : Bool) (amps : ℚ) (b : Bool),
      s.errorLockout = true →
      (EvseCharge.startCharging s now st).errorLockout = true ∧
      (EvseCharge.stopCharging s).errorLockout = true ∧
      (EvseCharge.pauseCharging s).errorLockout = true ∧
      (EvseCharge.setCurrentLimit s amps now).errorLockout = true ∧
      (EvseCharge.setRcmEnabled s b).errorLockout = true) := by
  refine ⟨fun settings now => rfl, fun s i h1 h2 => ?_, fun s now st amps b h => ?_⟩
  · rw [show EvseCharge.loop s i
        = EvseCharge.throttleAliveStep (EvseCharge.prethrottle s i) i.now from rfl,
      EvseCharge.throttleAliveStep_errorLockout] at h2
    have hp := EvseCharge.prethrottle_lockout s i h1 h2
    rw [show EvseCharge.loop s i
        = EvseCharge.throttleAliveStep (EvseCharge.prethrottle s i) i.now from rfl,
      EvseCharge.throttleAliveStep_vehicleState, EvseCharge.throttleAliveStep_rcmTripped,
      EvseCharge.throttleAliveStep_lastManagedVehicleState]
    exact hp
  · refine ⟨EvseCharge.startCharging_lockout_mono s now st h, ?_, ?_, ?_, ?_⟩
    · rw [EvseCharge.stopCharging_errorLockout]; exact h
    · rw [EvseCharge.pauseCharging_errorLockout]; exact h
    · rw [EvseCharge.setCurrentLimit_errorLockout]; exact h
    · exact h

/-- C1 witness: the boot state is locked out; a loop cycle on a locked-out
state whose committed vehicle state has just become `VEHICLE_NOT_CONNECTED`
clears the lockout and resets `rcmTripped`, with the previously managed
state not `VEHICLE_NOT_CONNECTED`; and `stopCharging` on the locked-out
boot state keeps the lockout. -/
theorem C1_error_lockout_latch_witness :
    (EvseCharge.setup {} 0).errorLockout = true ∧
    ((EvseCharge.loop unplugState idleInput).vehicleState = VEHICLE_NOT_CONNECTED ∧
     (EvseCharge.loop unplugState idleInput).rcmTripped = false ∧
     (EvseCharge.loop unplugState idleInput).lastManagedVehicleState
        = VEHICLE_NOT_CONNECTED ∧
     unplugState.lastManagedVehicleState ≠ VEHICLE_NOT_CONNECTED) ∧
    (EvseCharge.stopCharging bootState).errorLockout = true :=
  ⟨C1_error_lockout_latch.1 {} 0,
   C1_error_lockout_latch.2.1 unplugState idleInput rfl (by decide),
   (C1_error_lockout_latch.2.2 bootState 0 true 0 false rfl).2.1⟩

theorem Relay.loop_open_now (r : RelayState) (now : Nat)
    (hd : r.desiredState = false) :
    (Relay.loop r now).currentState = false := by
  unfold Relay.loop
  split_ifs with h1 h2
  · exact hd
  · exact absurd (Or.inl hd) h2
  · rw [← not_not.mp h1]
    exact hd

theorem Relay.loop_close_gate (r : RelayState) (now : Nat)
    (hc : r.currentState = false)
    (hcommit : (Relay.loop r now).currentState = true) :
    r.lastSwitchTime = 0 ∨ usub now r.lastSwitchTime ≥ RELAY_SWITCH_DELAY := by
  unfold Relay.loop at hcommit
  split_ifs at hcommit with h1 h2
  · rcases h2 with h2 | h2 | h2
    · have hdt : r.desiredState = true := hcommit
      rw [h2] at hdt
      exact absurd hdt (by decide)
    · exact Or.inl h2
    · exact Or.inr h2
  · rw [hc] at hcommit
    exact absurd hcommit (by decide)
  · rw [hc] at hcommit
    exact absurd hcommit (by decide)

theorem EvseCharge.loop_desired_bad (s : EvseState) (i : LoopInput)
    (h : badState ((EvseCharge.loop s i).vehicleState)) :
    (EvseCharge.loop s i).relay.desiredState = false := by
  have hveq : (EvseCharge.loop s i).vehicleState
      = (EvseCharge.managePwmAndRelay (EvseCharge.updateVehicleState
          { EvseCharge.rcmPeriodicStep (EvseCharge.rcmTriggerStep s i.rcmTriggered)
              i.now i.rcmSelfTestOk with
            relay := Relay.loop (EvseCharge.rcmPeriodicStep
              (EvseCharge.rcmTriggerStep s i.rcmTriggered) i.now i.rcmSelfTestOk).relay i.now }
          i.sample i.now)).vehicleState := by
    rw [show EvseCharge.loop s i
        = EvseCharge.throttleAliveStep (EvseCharge.prethrottle s i) i.now from rfl,
      EvseCharge.throttleAliveStep_vehicleState]
    simp only [EvseCharge.prethrottle]
    rw [EvseCharge.checkResumeFromLowLimit_vehicleState]
  rw [hveq] at h
  have hbadM : badState (EvseCharge.updateVehicleState
      { EvseCharge.rcmPeriodicStep (EvseCharge.rcmTriggerStep s i.rcmTriggered)
          i.now i.rcmSelfTestOk with
        relay := Relay.loop (EvseCharge.rcmPeriodicStep
          (EvseCharge.rcmTriggerStep s i.rcmTriggered) i.now i.rcmSelfTestOk).relay i.now }
      i.sample i.now).vehicleState := by
    rw [← EvseCharge.managePwmAndRelay_vehicleState]
    exact h
  have hkd := EvseCharge.managePwmAndRelay_desired_bad _ hbadM
  have hbadK : badState (EvseCharge.managePwmAndRelay (EvseCharge.updateVehicleState
      { EvseCharge.rcmPeriodicStep (EvseCharge.rcmTriggerStep s i.rcmTriggered)
          i.now i.rcmSelfTestOk with
        relay := Relay.loop (EvseCharge.rcmPeriodicStep
          (EvseCharge.rcmTriggerStep s i.rcmTriggered) i.now i.rcmSelfTestOk).relay i.now }
      i.sample i.now)).vehicleState := by
    rw [EvseCharge.managePwmAndRelay_vehicleState]
    exact hbadM
  have h6 := EvseCharge.checkResumeFromLowLimit_desired_bad _ i.now hbadK hkd
  have hbadR : badState ((EvseCharge.checkResumeFromLowLimit (EvseCharge.managePwmAndRelay
      (EvseCharge.updateVehicleState
        { EvseCharge.rcmPeriodicStep (EvseCharge.rcmTriggerStep s i.rcmTriggered)
            i.now i.rcmSelfTestOk with
          relay := Relay.loop (EvseCharge.rcmPeriodicStep
            (EvseCharge.rcmTriggerStep s i.rcmTriggered) i.now i.rcmSelfTestOk).relay i.now }
        i.sample i.now)) i.now).vehicleState) := by
    rw [EvseCharge.checkResumeFromLowLimit_vehicleState]
    exact hbadK
  exact EvseCharge.throttleAliveStep_desired_bad _ i.now hbadR h6

theorem EvseCharge.loop_current_of_desired (s : EvseState) (i : LoopInput)
    (hd : s.relay.desiredState = false) :
    (EvseCharge.loop s i).relay.currentState = false := by
  have h1 := EvseCharge.rcmTriggerStep_desired_false s i.rcmTriggered hd
  have h2 := EvseCharge.rcmPeriodicStep_desired_false _ i.now i.rcmSelfTestOk h1
  have h3 : ({ EvseCharge.rcmPeriodicStep (EvseCharge.rcmTriggerStep s i.rcmTriggered)
        i.now i.rcmSelfTestOk with
      relay := Relay.loop (EvseCharge.rcmPeriodicStep
        (EvseCharge.rcmTriggerStep s i.rcmTriggered) i.now i.rcmSelfTestOk).relay
        i.now } : EvseState).relay.currentState = false :=
    Relay.loop_open_now _ i.now h2
  have h4 := EvseCharge.updateVehicleState_current_false _ i.sample i.now h3
  have h5 := EvseCharge.managePwmAndRelay_current_false _ h4
  have h6 := EvseCharge.checkResumeFromLowLimit_current_false _ i.now h5
  exact EvseCharge.throttleAliveStep_current_false _ i.now h6

theorem EvseCharge.applyCmd_vehicleState (s : EvseState) (c : Cmd) :
    (EvseCharge.applyCmd s c).vehicleState = s.vehicleState := by
  cases c <;>
    simp only [EvseCharge.applyCmd, EvseCharge.startCharging_vehicleState,
      EvseCharge.stopCharging_vehicleState, EvseCharge.pauseCharging_vehicleState,
      EvseCharge.setCurrentLimit_vehicleState, EvseCharge.setRcmEnabled,
      EvseCharge.setThrottleAliveTimeout, EvseCharge.signalThrottleAlive,
      EvseCharge.setLowLimitResumeDelay, EvseCharge.setAllowBelow6AmpCharging,
      EvseCharge.updateActualCurrent, EvseCharge.enableCurrentTest,
      EvseCharge.setCurrentTest, EvseCharge.applyCurrentLimit_vehicleState]
  all_goals first | rfl | (split_ifs <;> rfl)

theorem EvseCharge.applyCmd_desired_bad (s : EvseState) (c : Cmd)
    (h : badState s.vehicleState) (hd : s.relay.desiredState = false) :
    (EvseCharge.applyCmd s c).relay.desiredState = false := by
  cases c with
  | start now st =>
      rw [show EvseCharge.applyCmd s (Cmd.start now st)
          = EvseCharge.startCharging s now st from rfl,
        EvseCharge.startCharging_bad s now st h]
      exact hd
  | stop => exact (EvseCharge.stopCharging_relay s).1
  | pause => exact EvseCharge.pauseCharging_desired_false s hd
  | setLimit amps now => exact EvseCharge.setCurrentLimit_desired_bad s amps now h hd
  | setRcm b => exact hd
  | setTimeout sec => exact hd
  | alive now => exact hd
  | setResumeDelay ms => exact hd
  | setAllowBelow b now =>
      exact EvseCharge.applyCurrentLimit_desired_of_notPermissive _ now
        (badState_not_permissive _ h)
  | meter c now => exact hd
  | enableTest b =>
      show (EvseCharge.enableCurrentTest s b).relay.desiredState = false
      unfold EvseCharge.enableCurrentTest
      split_ifs <;> exact hd
  | setTest amps =>
      show (EvseCharge.setCurrentTest s amps).relay.desiredState = false
      unfold EvseCharge.setCurrentTest
      split_ifs <;> exact hd

theorem EvseCharge.applyCmds_pres (cs : List Cmd) (s : EvseState)
    (h : badState s.vehicleState) (hd : s.relay.desiredState = false) :
    badState (EvseCharge.applyCmds s cs).vehicleState ∧
    (EvseCharge.applyCmds s cs).relay.desiredState = false := by
  induction cs generalizing s with
  | nil => exact ⟨h, hd⟩
  | cons c cs ih =>
      simp only [EvseCharge.applyCmds, List.foldl] at ih ⊢
      exact ih (EvseCharge.applyCmd s c)
        (by rw [EvseCharge.applyCmd_vehicleState]; exact h)
        (EvseCharge.applyCmd_desired_bad s c h hd)

/-- C2: whenever a loop cycle commits a vehicle state in
{NotConnected, NoPower, Error}, the relay is physically Open no later than
the next loop cycle, whatever burst of external commands is interleaved;
`Relay::loop` never defers an open (a pending open commits regardless of the
anti-chatter timer), while a close commits only on the very first switch or
after at least 3000 ms since the last switch. -/
theorem C2_relay_open_one_cycle :
    (∀ (s : EvseState) (i : LoopInput) (cs : List Cmd) (i2 : LoopInput),
      badState ((EvseCharge.loop s i).vehicleState) →
      (EvseCharge.loop (EvseCharge.applyCmds (EvseCharge.loop s i) cs)
        i2).relay.currentState = false) ∧
    (∀ (r : RelayState) (now : Nat), r.desiredState = false →
      (Relay.loop r now).currentState = false) ∧
    (∀ (r : RelayState) (now : Nat), r.currentState = false →
      (Relay.loop r now).currentState = true →
      r.lastSwitchTime = 0 ∨ usub now r.lastSwitchTime ≥ RELAY_SWITCH_DELAY) := by
  refine ⟨fun s i cs i2 hbad => ?_, Relay.loop_open_now, Relay.loop_close_gate⟩
  have hd := EvseCharge.loop_desired_bad s i hbad
  have hp := EvseCharge.applyCmds_pres cs (EvseCharge.loop s i) hbad hd
  exact EvseCharge.loop_current_of_desired _ i2 hp.2

/-- C2 witness: a cycle that commits `VEHICLE_NOT_CONNECTED` from the
error-vehicle boot state leads to an Open relay by the following cycle; a
pending open commits at once even 50 ms after the last switch; the one
close that does commit happens on a first switch (timer 0). -/
theorem C2_relay_open_one_cycle_witness :
    (EvseCharge.loop (EvseCharge.applyCmds (EvseCharge.loop errorVehicleState idleInput) [])
      idleInput).relay.currentState = false ∧
    (Relay.loop { currentState := true, desiredState := false, lastSwitchTime := 50, pin := true }
      60).currentState = false ∧
    (({ currentState := false, desiredState := true, lastSwitchTime := 0, pin := false }
        : RelayState).lastSwitchTime = 0 ∨
      usub 1 ({ currentState := false, desiredState := true, lastSwitchTime := 0, pin := false }
        : RelayState).lastSwitchTime ≥ RELAY_SWITCH_DELAY) :=
  ⟨C2_relay_open_one_cycle.1 errorVehicleState idleInput [] idleInput (by decide),
   C2_relay_open_one_cycle.2.1 _ 60 rfl,
   C2_relay_open_one_cycle.2.2
     { currentState := false, desiredState := true, lastSwitchTime := 0, pin := false } 1
     rfl (by decide)⟩

theorem EvseCharge.setCurrentLimit_value (s : EvseState) (amps : ℚ) (now : Nat)
    (h0 : 0 ≤ amps) (hmax : amps ≤ s.settings.maxCurrent) :
    (EvseCharge.setCurrentLimit s amps now).currentLimit = amps := by
  simp only [EvseCharge.setCurrentLimit]
  rw [if_neg (not_lt.mpr h0), if_neg (not_lt.mpr hmax)]
  split_ifs with hne
  · rw [EvseCharge.applyCurrentLimit_currentLimit]
  · exact (not_not.mp hne).symm

theorem usub_arm (now : Nat) : usub now (usub now 5000) = 5000 := by
  unfold usub U32
  omega

/-- C7: the ThrottleAlive ramp. The loop's ThrottleAlive block is its final
phase; while ThrottleAlive is enabled and charging, a stale cycle lowers the
current limit by exactly 1 A clamped at the 6 A floor, and only when at
least 5000 ms have passed since the last ramp step (which it then
timestamps); a cycle whose ramp timer is younger than 5000 ms never changes
the limit; the limit never ramps below 6 A; and a fresh cycle re-arms the
ramp timer to `now - 5000`, so the very next stale check already sees a
5000 ms-old ramp timer and the first decrement fires immediately. -/
theorem C7_throttle_ramp :
    (∀ (s : EvseState) (i : LoopInput),
      EvseCharge.loop s i = EvseCharge.throttleAliveStep (EvseCharge.prethrottle s i) i.now) ∧
    (∀ (s : EvseState) (now : Nat),
      s.throttleAliveTimeout > 0 → s.state = STATE_CHARGING →
      usub now s.lastThrottleAliveTime > (s.throttleAliveTimeout * 1000) % U32 →
      s.currentLimit > 6 → s.currentLimit ≤ s.settings.maxCurrent →
      usub now s.lastThrottleRampTime ≥ 5000 →
      (EvseCharge.throttleAliveStep s now).currentLimit = max (s.currentLimit - 1) 6 ∧
      (EvseCharge.throttleAliveStep s now).lastThrottleRampTime = now % U32) ∧
    (∀ (s : EvseState) (now : Nat),
      usub now s.lastThrottleRampTime < 5000 →
      (EvseCharge.throttleAliveStep s now).currentLimit = s.currentLimit) ∧
    (∀ (s : EvseState) (now : Nat),
      s.currentLimit ≤ s.settings.maxCurrent →
      (EvseCharge.throttleAliveStep s now).currentLimit = s.currentLimit ∨
      (EvseCharge.throttleAliveStep s now).currentLimit ≥ 6) ∧
    (∀ (s : EvseState) (now : Nat),
      s.throttleAliveTimeout > 0 → s.state = STATE_CHARGING →
      ¬ (usub now s.lastThrottleAliveTime > (s.throttleAliveTimeout * 1000) % U32) →
      (EvseCharge.throttleAliveStep s now).lastThrottleRampTime = usub now 5000 ∧
      usub now (usub now 5000) = 5000 ∧
      (EvseCharge.throttleAliveStep s now).currentLimit = s.currentLimit) := by
  refine ⟨fun s i => rfl, fun s now h1 h2 h3 h4 h5 h6 => ?_, fun s now h => ?_,
    fun s now hmax => ?_, fun s now h1 h2 h3 => ?_⟩
  · unfold EvseCharge.throttleAliveStep
    rw [if_pos ⟨h1, h2⟩, if_pos h3, if_pos h4, if_pos h6]
    by_cases hlow : s.currentLimit - 1 < 6
    · rw [if_pos hlow]
      refine ⟨?_, rfl⟩
      show (EvseCharge.setCurrentLimit s 6 now).currentLimit = _
      rw [EvseCharge.setCurrentLimit_value s 6 now (by norm_num) (by linarith)]
      exact (max_eq_right (le_of_lt hlow)).symm
    · rw [if_neg hlow]
      push_neg at hlow
      refine ⟨?_, rfl⟩
      show (EvseCharge.setCurrentLimit s (s.currentLimit - 1) now).currentLimit = _
      rw [EvseCharge.setCurrentLimit_value s (s.currentLimit - 1) now (by linarith) (by linarith)]
      exact (max_eq_left hlow).symm
  · unfold EvseCharge.throttleAliveStep
    split_ifs <;> first | rfl | omega
  · unfold EvseCharge.throttleAliveStep
    split_ifs with hA hB hC hD hE
    · right
      show (EvseCharge.setCurrentLimit s 6 now).currentLimit ≥ 6
      rw [EvseCharge.setCurrentLimit_value s 6 now (by norm_num) (by linarith)]
    · right
      push_neg at hE
      show (EvseCharge.setCurrentLimit s (s.currentLimit - 1) now).currentLimit ≥ 6
      rw [EvseCharge.setCurrentLimit_value s (s.currentLimit - 1) now (by linarith) (by linarith)]
      exact hE
    · exact Or.inl rfl
    · exact Or.inl rfl
    · exact Or.inl rfl
    · exact Or.inl rfl
  · unfold EvseCharge.throttleAliveStep
    rw [if_pos ⟨h1, h2⟩, if_neg h3]
    exact ⟨rfl, usub_arm now, rfl⟩

/-- C7 witness: from a charging state with ThrottleAlive timeout 60 s,
limit 20 A and both timers at 0 — at t = 70000 ms the data is stale and the
limit drops to 19 A with the ramp timestamped; at t = 1000 ms the data is
fresh and the ramp timer is re-armed to fire immediately. -/
theorem C7_throttle_ramp_witness :
    (EvseCharge.throttleAliveStep chargingState 70000).currentLimit = max (20 - 1) 6 ∧
    (EvseCharge.throttleAliveStep chargingState 70000).lastThrottleRampTime = 70000 % U32 ∧
    (EvseCharge.throttleAliveStep chargingState 1000).lastThrottleRampTime = usub 1000 5000 ∧
    usub 1000 (usub 1000 5000) = 5000 :=
  ⟨(C7_throttle_ramp.2.1 chargingState 70000 (by decide) rfl (by decide) (by decide)
      (by decide) (by decide)).1,
   (C7_throttle_ramp.2.1 chargingState 70000 (by decide) rfl (by decide) (by decide)
      (by decide) (by decide)).2,
   (C7_throttle_ramp.2.2.2.2 chargingState 1000 (by decide) rfl (by decide)).1,
   (C7_throttle_ramp.2.2.2.2 chargingState 1000 (by decide) rfl (by decide)).2.1⟩
